import Mathlib

/-!
Painel de Automação Residencial: shallow embedding of `src/main.c`.

The firmware keeps its Device State in four globals (`cor_atual`,
`comodo_atual`, `led_ligado`, `emergencia`), mutated by the button debouncer
of the main loop and by the HTTP router `processar_requisicao`.

Conventions of the embedding:
* a `char` / byte is a `Nat`; a C string is the run of bytes before the first
  zero byte of its buffer (`cstr`);
* `uint32_t` millisecond stamps are `Nat`s below `2^32`, subtraction is taken
  modulo `2^32` (`sub32`);
* a `float` temperature reading is the rational number it denotes; the
  comparison against `40.0f` is then the exact order of `ℚ`.
-/

namespace Painel

/-! ## Data model -/

/-- C enum `Cor` (line 40): the colours of the RGB LED and of the matrix. -/
inductive Cor where
  | VERMELHO | VERDE | AZUL | AMARELO | CIANO | LILAS
  deriving DecidableEq, Repr, Fintype

/-- C enum `Comodo` (line 41): the four rooms. -/
inductive Comodo where
  | QUARTO_1 | QUARTO_2 | COZINHA | BANHEIRO
  deriving DecidableEq, Repr, Fintype

/-- Integer value of a `Cor` enumerator. -/
def Cor.toNat : Cor → Nat
  | .VERMELHO => 0 | .VERDE => 1 | .AZUL => 2
  | .AMARELO => 3 | .CIANO => 4 | .LILAS => 5

/-- Enumerator of `Cor` with a given integer value (values `0..5`). -/
def Cor.fromNat : Nat → Cor
  | 0 => .VERMELHO | 1 => .VERDE | 2 => .AZUL
  | 3 => .AMARELO | 4 => .CIANO | _ => .LILAS

/-- Integer value of a `Comodo` enumerator. -/
def Comodo.toNat : Comodo → Nat
  | .QUARTO_1 => 0 | .QUARTO_2 => 1 | .COZINHA => 2 | .BANHEIRO => 3

/-- Enumerator of `Comodo` with a given integer value (values `0..3`). -/
def Comodo.fromNat : Nat → Comodo
  | 0 => .QUARTO_1 | 1 => .QUARTO_2 | 2 => .COZINHA | _ => .BANHEIRO

/-- Device State: the globals `cor_atual`, `comodo_atual`, `led_ligado`,
`emergencia` (lines 42-45). -/
structure DeviceState where
  cor_atual : Cor
  comodo_atual : Comodo
  led_ligado : Bool
  emergencia : Bool
  deriving DecidableEq, Repr, Fintype

/-! ## C strings and `strstr` -/

/-- Bytes (UTF-8) of a string literal of the source. -/
def bytes (s : String) : List Nat :=
  s.toList.flatMap (fun c => (String.utf8EncodeChar c).map UInt8.toNat)

/-- The C string stored in a buffer: the bytes before the first NUL. -/
def cstr (buf : List Nat) : List Nat := buf.takeWhile (fun c => c != 0)

/-- Scan of `strstr`: offset of the first position of `hay` at which `needle`
starts, counting from `i`. -/
def strstrAux (needle : List Nat) : List Nat → Nat → Option Nat
  | [], i => if needle.isEmpty then some i else none
  | c :: cs, i =>
    if needle.isPrefixOf (c :: cs) then some i else strstrAux needle cs (i + 1)

/-- C library `strstr(haystack, needle)`: offset of the first occurrence of the
string `needle` inside the string `haystack`, `none` for a NULL result. -/
def strstr (haystack needle : List Nat) : Option Nat :=
  strstrAux (cstr needle) (cstr haystack) 0

/-! ## HTTP request router (`processar_requisicao`, lines 336-368) -/

/-- Function `processar_requisicao(requisicao, len)`: the chain of `strstr`
tests over the request string, each branch writing the globals it names. -/
def processar_requisicao (d : DeviceState) (requisicao : List Nat) (_len : Nat) :
    DeviceState :=
  if (strstr requisicao (bytes "GET /led_on")).isSome then
    { d with led_ligado := true }
  else if (strstr requisicao (bytes "GET /led_off")).isSome then
    { d with led_ligado := false }
  else if (strstr requisicao (bytes "GET /color_red")).isSome then
    { d with cor_atual := .VERMELHO }
  else if (strstr requisicao (bytes "GET /color_green")).isSome then
    { d with cor_atual := .VERDE }
  else if (strstr requisicao (bytes "GET /color_blue")).isSome then
    { d with cor_atual := .AZUL }
  else if (strstr requisicao (bytes "GET /color_yellow")).isSome then
    { d with cor_atual := .AMARELO }
  else if (strstr requisicao (bytes "GET /color_cyan")).isSome then
    { d with cor_atual := .CIANO }
  else if (strstr requisicao (bytes "GET /color_lilas")).isSome then
    { d with cor_atual := .LILAS }
  else if (strstr requisicao (bytes "GET /alarm_off")).isSome then
    { d with emergencia := false }
  else if (strstr requisicao (bytes "GET /room1")).isSome then
    { d with comodo_atual := .QUARTO_1, led_ligado := true }
  else if (strstr requisicao (bytes "GET /room2")).isSome then
    { d with comodo_atual := .QUARTO_2, led_ligado := true }
  else if (strstr requisicao (bytes "GET /room3")).isSome then
    { d with comodo_atual := .COZINHA, led_ligado := true }
  else if (strstr requisicao (bytes "GET /room4")).isSome then
    { d with comodo_atual := .BANHEIRO, led_ligado := true }
  else d

/-! ## Render engine (lines 279-327) -/

/-- The `switch (cor)` of `configurar_led_rgb` and `atualizar_matriz`: the
values given to the locals `(r, g, b)`, all initialised to `0`. -/
def switch_cor : Cor → Nat × Nat × Nat
  | .VERMELHO => (32, 0, 0)
  | .VERDE => (0, 32, 0)
  | .AZUL => (0, 0, 32)
  | .AMARELO => (32, 32, 0)
  | .CIANO => (0, 32, 32)
  | .LILAS => (32, 0, 32)

/-- Function `configurar_led_rgb(cor, estado)`: the levels written by
`gpio_put` to `(LED_R, LED_G, LED_B)`. -/
def configurar_led_rgb (cor : Cor) (estado : Bool) : Bool × Bool × Bool :=
  let rgb : Nat × Nat × Nat := if estado then switch_cor cor else (0, 0, 0)
  (decide (rgb.1 > 0), decide (rgb.2.1 > 0), decide (rgb.2.2 > 0))

/-- Table `comodos[4][4]` (lines 64-69): the four cells of each room. -/
def comodos : List (List Nat) :=
  [[24, 23, 15, 16], [21, 20, 18, 19], [5, 6, 4, 3], [8, 9, 1, 0]]

/-- Table `cruz[]` (line 72): the nine cells of the central cross. -/
def cruz : List Nat := [22, 17, 12, 7, 2, 14, 13, 11, 10]

/-- The packed word `((uint32_t)(r) << 8) | ((uint32_t)(g) << 16) | (uint32_t)(b)`. -/
def palavra (r g b : Nat) : Nat := (r <<< 8) ||| (g <<< 16) ||| b

/-- A loop `for (i...) pixels[indices[i]] = v`. -/
def preencher (indices : List Nat) (v : Nat) (pixels : List Nat) : List Nat :=
  indices.foldl (fun px i => px.set i v) pixels

/-- The array `pixels[25]` of `atualizar_matriz` as it stands before the
transmit loop (lines 298-322). -/
def pixels_matriz (d : DeviceState) : List Nat :=
  let pixels := preencher cruz (palavra 10 10 10) (List.replicate 25 0)
  if d.emergencia then
    preencher (comodos.getD d.comodo_atual.toNat []) (palavra 32 0 0) pixels
  else if d.led_ligado then
    let rgb := switch_cor d.cor_atual
    preencher (comodos.getD d.comodo_atual.toNat []) (palavra rgb.1 rgb.2.1 rgb.2.2) pixels
  else pixels

/-- Function `atualizar_matriz()`: the 25 words handed to
`pio_sm_put_blocking`, `pixels[i] << 8u` in cell order (lines 324-326). -/
def atualizar_matriz (d : DeviceState) : List Nat :=
  (pixels_matriz d).map (fun p => (p <<< 8) % 4294967296)

/-! ## Main loop (lines 142-238) -/

/-- Subtraction of two `uint32_t` values, as in `agora - ultimo_botao`. -/
def sub32 (a b : Nat) : Nat := (a + (4294967296 - b % 4294967296)) % 4294967296

/-- The globals of the program and the `static` locals of `main`: Device
State, the time stamps, the previous samples of the three controls and the
level last written to the `BUZZER` pin. -/
structure Sistema where
  dev : DeviceState
  ultima_leitura_temperatura : Nat
  ultimo_botao : Nat
  ultima_atualizacao_oled : Nat
  ultimo_buzzer : Nat
  botao_a_pressao_inicio : Nat
  botao_a_pressionado : Bool
  botao_joystick_pressionado : Bool
  botao_b_pressionado : Bool
  buzzer : Bool
  deriving DecidableEq, Repr

/-- Joystick branch of the button tick (lines 155-168). -/
def botao_joystick (s : Sistema) (estado_joystick : Bool) : Sistema :=
  if estado_joystick && !s.botao_joystick_pressionado then
    { s with
      dev := { s.dev with cor_atual := Cor.fromNat ((s.dev.cor_atual.toNat + 1) % 6) }
      botao_joystick_pressionado := true }
  else if !estado_joystick then
    { s with botao_joystick_pressionado := false }
  else s

/-- Button A branch of the button tick (lines 170-191). -/
def botao_a (s : Sistema) (agora : Nat) (estado_botao_a : Bool) : Sistema :=
  if estado_botao_a && !s.botao_a_pressionado then
    { s with botao_a_pressionado := true, botao_a_pressao_inicio := agora }
  else if estado_botao_a && s.botao_a_pressionado then
    if sub32 agora s.botao_a_pressao_inicio ≥ 3000 then
      { s with dev := { s.dev with led_ligado := false } }
    else s
  else if !estado_botao_a && s.botao_a_pressionado then
    let s1 : Sistema :=
      if sub32 agora s.botao_a_pressao_inicio < 3000 then
        { s with
          dev := { s.dev with
            comodo_atual := Comodo.fromNat ((s.dev.comodo_atual.toNat + 1) % 4)
            led_ligado := true } }
      else s
    { s1 with botao_a_pressionado := false }
  else s

/-- Button B branch of the button tick (lines 193-201). -/
def botao_b (s : Sistema) (estado_botao_b : Bool) : Sistema :=
  if estado_botao_b && !s.botao_b_pressionado then
    { s with dev := { s.dev with emergencia := false }, botao_b_pressionado := true }
  else if !estado_botao_b then
    { s with botao_b_pressionado := false }
  else s

/-- Body of the button tick (lines 148-203): one sample of the three
controls. The three `gpio_*` arguments are the levels returned by `gpio_get`
(active low, so a control is pressed when its level is `false`). -/
def amostrar_botoes (s : Sistema) (agora : Nat)
    (gpio_joystick gpio_a gpio_b : Bool) : Sistema :=
  let estado_joystick := !gpio_joystick
  let estado_botao_a := !gpio_a
  let estado_botao_b := !gpio_b
  let s1 := botao_joystick s estado_joystick
  let s2 := botao_a s1 agora estado_botao_a
  let s3 := botao_b s2 estado_botao_b
  { s3 with ultimo_botao := agora }

/-- The button tick of `main` (lines 147-204): the sample is taken when 10 ms
or more have passed since the last one. -/
def verificar_botoes (s : Sistema) (agora : Nat)
    (gpio_joystick gpio_a gpio_b : Bool) : Sistema :=
  if sub32 agora s.ultimo_botao ≥ 10 then
    amostrar_botoes s agora gpio_joystick gpio_a gpio_b
  else s

/-- The temperature tick of `main` (lines 207-213); `temperatura` is the value
returned by `ler_temperatura()`. -/
def verificar_temperatura (s : Sistema) (agora : Nat) (temperatura : ℚ) : Sistema :=
  if sub32 agora s.ultima_leitura_temperatura ≥ 1000 then
    let s1 : Sistema :=
      if temperatura > 40 then { s with dev := { s.dev with emergencia := true } } else s
    { s1 with ultima_leitura_temperatura := agora }
  else s

/-- The display tick of `main` (lines 216-219), as far as the globals go. -/
def verificar_oled (s : Sistema) (agora : Nat) : Sistema :=
  if sub32 agora s.ultima_atualizacao_oled ≥ 1000 then
    { s with ultima_atualizacao_oled := agora }
  else s

/-- The buzzer control of `main` (lines 222-227). -/
def controlar_buzzer (s : Sistema) (agora : Nat) : Sistema :=
  if s.dev.emergencia && decide (sub32 agora s.ultimo_buzzer ≥ 1000) then
    { s with buzzer := !s.buzzer, ultimo_buzzer := agora }
  else if !s.dev.emergencia && s.buzzer then
    { s with buzzer := false }
  else s

/-- Outputs of the render step: the RGB LED levels and the matrix words. -/
structure Saida where
  led_rgb : Bool × Bool × Bool
  pixels : List Nat
  ws2812 : List Nat
  deriving DecidableEq, Repr

/-- The render step of `main` (lines 230-235): `configurar_led_rgb` then
`atualizar_matriz`. It reads the globals and writes only to the peripherals,
so the state it returns is the state it was given. -/
def renderizar (s : Sistema) : Sistema × Saida :=
  let led : Bool × Bool × Bool :=
    if !s.dev.emergencia then configurar_led_rgb s.dev.cor_atual s.dev.led_ligado
    else configurar_led_rgb s.dev.cor_atual false
  (s, { led_rgb := led, pixels := pixels_matriz s.dev, ws2812 := atualizar_matriz s.dev })

/-- One iteration of the `while (true)` body after `cyw43_arch_poll()`, with
the inputs it reads: the clock, the three pin levels and the sensor value. -/
def main_loop (s : Sistema) (agora : Nat) (gpio_joystick gpio_a gpio_b : Bool)
    (temperatura : ℚ) : Sistema × Saida :=
  let s1 := verificar_botoes s agora gpio_joystick gpio_a gpio_b
  let s2 := verificar_temperatura s1 agora temperatura
  let s3 := verificar_oled s2 agora
  let s4 := controlar_buzzer s3 agora
  renderizar s4

/-! ## Connection handler (`tcp_server_recv`, lines 371-489) -/

/-- The literals of the `snprintf` format that come before its first `%s`
(lines 417-468), one entry per source line. -/
def formato_inicio : List String :=
  [
   "HTTP/1.1 200 OK\r\n",
   "Content-Type: text/html\r\n",
   "\r\n",
   "<!DOCTYPE html>",
   "<html>",
   "<head>",
   "<meta charset=\"UTF-8\">",
   "<title>Painel Casa Inteligente</title>",
   "<style>",
   "body\x7bbackground:#f0f8ff;color:#333;text-align:center;padding:10px;\x7d",
   "h3\x7bcolor:#2c3e50;margin:10px 0;\x7d",
   ".section\x7bmargin:10px 0;padding:5px;border:1px solid #ccc;border-radius:5px;\x7d",
   ".section h4\x7bfont-size:1.1em;color:#34495e;margin:5px 0;\x7d",
   "button\x7bbackground:#3498db;color:white;border:none;padding:5px 10px;border-radius:3px;margin:2px;cursor:pointer;\x7d",
   "button:hover\x7bbackground:#2980b9;\x7d",
   ".off\x7bbackground:#e74c3c;\x7d",
   ".off:hover\x7bbackground:#c0392b;\x7d",
   ".on\x7bbackground:#27ae60;\x7d",
   ".on:hover\x7bbackground:#219653;\x7d",
   ".status\x7bbackground:#ecf0f1;padding:5px;border-radius:3px;margin-top:10px;\x7d",
   "p\x7bmargin:3px 0;\x7d",
   "</style>",
   "</head>",
   "<body>",
   "<h3>Painel Casa Inteligente</h3>",
   "<div class=\"section\">",
   "<h4>Cômodos</h4>",
   "<form action=\"./room1\"><button>Quarto 1</button></form>",
   "<form action=\"./room2\"><button>Quarto 2</button></form>",
   "<form action=\"./room3\"><button>Cozinha</button></form>",
   "<form action=\"./room4\"><button>Banheiro</button></form>",
   "</div>",
   "<div class=\"section\">",
   "<h4>Controle de LEDs</h4>",
   "<form action=\"./led_on\"><button class=\"on\">Ligar LED</button></form>",
   "<form action=\"./led_off\"><button class=\"off\">Desligar LED</button></form>",
   "</div>",
   "<div class=\"section\">",
   "<h4>Cores</h4>",
   "<form action=\"./color_red\"><button>Vermelho</button></form>",
   "<form action=\"./color_green\"><button>Verde</button></form>",
   "<form action=\"./color_blue\"><button>Azul</button></form>",
   "<form action=\"./color_yellow\"><button>Amarelo</button></form>",
   "<form action=\"./color_cyan\"><button>Ciano</button></form>",
   "<form action=\"./color_lilas\"><button>Lilás</button></form>",
   "</div>",
   "<div class=\"section\">",
   "<h4>Alarme</h4>",
   "<form action=\"./alarm_off\"><button class=\"off\">Desligar Alarme</button></form>",
   "</div>",
   "<div class=\"section status\">",
   "<h4>Status</h4>" ]

/-- The text the format of `snprintf(html, sizeof(html), ...)` expands to
(lines 417-483): the format with its four fields filled in. `temperatura` is
the text `%.1f` prints for the sensor value. -/
def texto_html (d : DeviceState) (temperatura : List Nat) : List Nat :=
  bytes (String.join formato_inicio)
  ++ bytes "<p>LED: " ++ bytes (if d.led_ligado then "LIGADO" else "DESLIGADO")
  ++ bytes "</p>"
  ++ bytes "<p>Cor: "
  ++ bytes (if d.cor_atual = .VERMELHO then "Vermelho"
      else if d.cor_atual = .VERDE then "Verde"
      else if d.cor_atual = .AZUL then "Azul"
      else if d.cor_atual = .AMARELO then "Amarelo"
      else if d.cor_atual = .CIANO then "Ciano" else "Lilás")
  ++ bytes "</p>"
  ++ bytes "<p>Temperatura: " ++ temperatura ++ bytes "C</p>"
  ++ bytes "<p>Emergência: " ++ bytes (if d.emergencia then "LIGADA" else "DESLIGADA")
  ++ bytes "</p>"
  ++ bytes "</div>"
  ++ bytes "</body>"
  ++ bytes "</html>"

/-- The text `snprintf(html, sizeof(html), ...)` leaves in `html[2000]` (lines
415-483): the expanded format, cut at 1999 bytes. -/
def snprintf_html (d : DeviceState) (temperatura : List Nat) : List Nat :=
  (texto_html d temperatura).take 1999

/-- Calls made on the connection and on the inbound buffer. -/
inductive Acao where
  | tcp_close
  | tcp_recv_NULL
  | tcp_write (dados : List Nat)
  | tcp_output
  | pbuf_free
  deriving DecidableEq, Repr

/-- One connection as the TCP stack holds it: whether it is still open and
whether a receive callback is registered on it. -/
structure Conexao where
  aberta : Bool
  recv_registrado : Bool
  deriving DecidableEq, Repr

/-- Callback `tcp_server_accept` (lines 330-333): `tcp_recv(newpcb,
tcp_server_recv)` registers the receive handler on the new, open connection. -/
def tcp_server_accept : Conexao := { aberta := true, recv_registrado := true }

/-- Effect of the calls of a callback on its connection: `tcp_close` closes it,
`tcp_recv(tpcb, NULL)` removes the receive handler, the other calls leave the
connection as it is. -/
def efeito_acoes (c : Conexao) : List Acao → Conexao
  | [] => c
  | .tcp_close :: r => efeito_acoes { c with aberta := false } r
  | .tcp_recv_NULL :: r => efeito_acoes { c with recv_registrado := false } r
  | .tcp_write _ :: r => efeito_acoes c r
  | .tcp_output :: r => efeito_acoes c r
  | .pbuf_free :: r => efeito_acoes c r

/-- Callback `tcp_server_recv(arg, tpcb, p, err)`: `p` is `none` for a NULL
`pbuf`, otherwise the `p->len` bytes at `p->payload`. Returns the Device State
it leaves and the calls it makes, in order. -/
def tcp_server_recv (d : DeviceState) (p : Option (List Nat)) (temperatura : List Nat) :
    DeviceState × List Acao :=
  match p with
  | none => (d, [.tcp_close, .tcp_recv_NULL])
  | some payload =>
    let len := if payload.length < 255 then payload.length else 255
    let requisicao := payload.take len ++ [0]
    let d1 := processar_requisicao d requisicao len
    let html := snprintf_html d1 temperatura
    (d1, [.tcp_write (cstr html), .tcp_output, .pbuf_free])

/-! ## Vocabulary of the specification -/

/-- The 13 recognised command tokens, in the order in which
`processar_requisicao` tests them (the table order of the HTTP surface). -/
def tokens : List (List Nat) :=
  [bytes "GET /led_on", bytes "GET /led_off", bytes "GET /color_red",
   bytes "GET /color_green", bytes "GET /color_blue", bytes "GET /color_yellow",
   bytes "GET /color_cyan", bytes "GET /color_lilas", bytes "GET /alarm_off",
   bytes "GET /room1", bytes "GET /room2", bytes "GET /room3", bytes "GET /room4"]

/-- A token occurs in a request: it is a contiguous run of bytes of the
request string (the text before the terminating NUL of the buffer). -/
abbrev Ocorre (token requisicao : List Nat) : Prop := token <:+: cstr requisicao

/-- Exactly one command token occurs in the request, and it is `token`. -/
abbrev UnicoToken (token requisicao : List Nat) : Prop :=
  Ocorre token requisicao ∧ ∀ u ∈ tokens, Ocorre u requisicao → u = token

/-- The if-else chain of `processar_requisicao` read as a table: each token
with the assignment of its branch, in source order. -/
def rotas : List (List Nat × (DeviceState → DeviceState)) :=
  [(bytes "GET /led_on", fun d => { d with led_ligado := true }),
   (bytes "GET /led_off", fun d => { d with led_ligado := false }),
   (bytes "GET /color_red", fun d => { d with cor_atual := .VERMELHO }),
   (bytes "GET /color_green", fun d => { d with cor_atual := .VERDE }),
   (bytes "GET /color_blue", fun d => { d with cor_atual := .AZUL }),
   (bytes "GET /color_yellow", fun d => { d with cor_atual := .AMARELO }),
   (bytes "GET /color_cyan", fun d => { d with cor_atual := .CIANO }),
   (bytes "GET /color_lilas", fun d => { d with cor_atual := .LILAS }),
   (bytes "GET /alarm_off", fun d => { d with emergencia := false }),
   (bytes "GET /room1", fun d => { d with comodo_atual := .QUARTO_1, led_ligado := true }),
   (bytes "GET /room2", fun d => { d with comodo_atual := .QUARTO_2, led_ligado := true }),
   (bytes "GET /room3", fun d => { d with comodo_atual := .COZINHA, led_ligado := true }),
   (bytes "GET /room4", fun d => { d with comodo_atual := .BANHEIRO, led_ligado := true })]

/-- First-match dispatch over a table of routes. -/
def rotear : List (List Nat × (DeviceState → DeviceState)) → List Nat → DeviceState →
    DeviceState
  | [], _, d => d
  | r :: rs, requisicao, d =>
    if (strstr requisicao r.1).isSome then r.2 d else rotear rs requisicao d

/-- The 13 fixed paths of the HTTP surface, in table order. -/
def caminhos : List (List Nat) :=
  [bytes "/led_on", bytes "/led_off", bytes "/color_red", bytes "/color_green",
   bytes "/color_blue", bytes "/color_yellow", bytes "/color_cyan",
   bytes "/color_lilas", bytes "/alarm_off", bytes "/room1", bytes "/room2",
   bytes "/room3", bytes "/room4"]

/-- Request path of a `GET` request: the bytes between the leading `GET ` and
the next space; `none` when the request does not start with `GET `. -/
def caminho_GET (requisicao : List Nat) : Option (List Nat) :=
  if (bytes "GET ").isPrefixOf requisicao then
    some ((requisicao.drop 4).takeWhile (fun c => c != 32))
  else none

/-- A run of button samples during which Button A is held: each entry gives
the time elapsed since `t0` and the levels of the joystick and Button B pins. -/
def segurar (t0 : Nat) (s : Sistema) : List (Nat × Bool × Bool) → Sistema
  | [] => s
  | x :: r =>
    segurar t0 (amostrar_botoes s ((t0 + x.1) % 4294967296) x.2.1 false x.2.2) r

/-- The part of the response text between the fixed opening and the
temperature field: the LED and colour lines and the opening of the
temperature line. -/
def html_antes (d : DeviceState) : List Nat :=
  bytes "<p>LED: " ++ bytes (if d.led_ligado then "LIGADO" else "DESLIGADO")
  ++ bytes "</p>"
  ++ bytes "<p>Cor: "
  ++ bytes (if d.cor_atual = .VERMELHO then "Vermelho"
      else if d.cor_atual = .VERDE then "Verde"
      else if d.cor_atual = .AZUL then "Azul"
      else if d.cor_atual = .AMARELO then "Amarelo"
      else if d.cor_atual = .CIANO then "Ciano" else "Lilás")
  ++ bytes "</p>"
  ++ bytes "<p>Temperatura: "

/-- The part of the response text after the temperature field. -/
def html_depois (d : DeviceState) : List Nat :=
  bytes "C</p>"
  ++ bytes "<p>Emergência: " ++ bytes (if d.emergencia then "LIGADA" else "DESLIGADA")
  ++ bytes "</p>"
  ++ bytes "</div>"
  ++ bytes "</body>"
  ++ bytes "</html>"

/-- A run of joystick clicks: each entry is a sample that sees the joystick
pressed followed by a sample that sees it released, each with its clock value
and the levels of the Button A and Button B pins. -/
def cliques_joystick (s : Sistema) :
    List ((Nat × Bool × Bool) × (Nat × Bool × Bool)) → Sistema
  | [] => s
  | x :: r =>
    cliques_joystick
      (amostrar_botoes (amostrar_botoes s x.1.1 false x.1.2.1 x.1.2.2)
        x.2.1 true x.2.2.1 x.2.2.2) r

/-- A run of Button A clicks: each entry is a sample that sees Button A
pressed followed by a sample that sees it released, each with its clock value
and the levels of the joystick and Button B pins. -/
def cliques_a (s : Sistema) :
    List ((Nat × Bool × Bool) × (Nat × Bool × Bool)) → Sistema
  | [] => s
  | x :: r =>
    cliques_a
      (amostrar_botoes (amostrar_botoes s x.1.1 x.1.2.1 false x.1.2.2)
        x.2.1 x.2.2.1 true x.2.2.2) r

/-! ## `strstr` finds exactly the occurrences -/

theorem strstrAux_isSome (needle hay : List Nat) (i : Nat) :
    (strstrAux needle hay i).isSome = true ↔ needle <:+: hay := by
  induction hay generalizing i with
  | nil =>
    cases needle <;> simp [strstrAux]
  | cons c cs ih =>
    unfold strstrAux
    by_cases hp : needle.isPrefixOf (c :: cs) = true
    · rw [if_pos hp]
      simpa using (List.isPrefixOf_iff_prefix.1 hp).isInfix
    · rw [if_neg hp, ih, List.infix_cons_iff]
      constructor
      · exact Or.inr
      · rintro (h | h)
        · exact absurd (List.isPrefixOf_iff_prefix.2 h) hp
        · exact h

theorem strstr_isSome (requisicao token : List Nat) (h : cstr token = token) :
    (strstr requisicao token).isSome = true ↔ Ocorre token requisicao := by
  unfold strstr Ocorre
  rw [h, strstrAux_isSome]

/-! ## The router as a first-match table -/

theorem processar_requisicao_eq_rotear (d : DeviceState) (requisicao : List Nat)
    (len : Nat) : processar_requisicao d requisicao len = rotear rotas requisicao d :=
  rfl

theorem rotear_nenhum (rs : List (List Nat × (DeviceState → DeviceState)))
    (requisicao : List Nat) (d : DeviceState)
    (h : ∀ r ∈ rs, cstr r.1 = r.1 ∧ ¬ Ocorre r.1 requisicao) :
    rotear rs requisicao d = d := by
  induction rs with
  | nil => rfl
  | cons r rs ih =>
    have hr := h r (List.mem_cons_self _ _)
    unfold rotear
    rw [if_neg (fun hs => hr.2 ((strstr_isSome _ _ hr.1).1 hs))]
    exact ih (fun r' hr' => h r' (List.mem_cons_of_mem _ hr'))

theorem rotear_primeiro (pre post : List (List Nat × (DeviceState → DeviceState)))
    (t : List Nat) (f : DeviceState → DeviceState) (requisicao : List Nat)
    (d : DeviceState)
    (hpre : ∀ r ∈ pre, cstr r.1 = r.1 ∧ ¬ Ocorre r.1 requisicao)
    (ht : cstr t = t) (hoc : Ocorre t requisicao) :
    rotear (pre ++ (t, f) :: post) requisicao d = f d := by
  induction pre with
  | nil =>
    show (if (strstr requisicao t).isSome then f d else _) = f d
    rw [if_pos ((strstr_isSome _ _ ht).2 hoc)]
  | cons r rs ih =>
    have hr := hpre r (List.mem_cons_self _ _)
    show (if (strstr requisicao r.1).isSome then _ else _) = f d
    rw [if_neg (fun hs => hr.2 ((strstr_isSome _ _ hr.1).1 hs))]
    exact ih (fun r' hr' => hpre r' (List.mem_cons_of_mem _ hr'))

theorem rotear_unico (pre post : List (List Nat × (DeviceState → DeviceState)))
    (t : List Nat) (f : DeviceState → DeviceState) (requisicao : List Nat)
    (d : DeviceState) (len : Nat)
    (hrot : rotas = pre ++ (t, f) :: post)
    (hpre : ∀ r ∈ pre, cstr r.1 = r.1 ∧ r.1 ∈ tokens ∧ r.1 ≠ t)
    (ht : cstr t = t) (h : UnicoToken t requisicao) :
    processar_requisicao d requisicao len = f d := by
  rw [processar_requisicao_eq_rotear, hrot]
  refine rotear_primeiro pre post t f requisicao d ?_ ht h.1
  intro r hr
  obtain ⟨h1, h2, h3⟩ := hpre r hr
  exact ⟨h1, fun ho => h3 (h.2 r.1 h2 ho)⟩

/-! ## HTTP surface: LED and colour paths -/

/-- C1: when exactly one command token occurs in the request string,
`processar_requisicao` applies the LED and colour rows of the HTTP surface
table: `GET /led_on` and `GET /led_off` write `led_ligado`, the six
`GET /color_*` tokens write `cor_atual`, and every other field of the Device
State is unchanged. -/
theorem processar_requisicao_led_cor (d : DeviceState) (requisicao : List Nat)
    (len : Nat) :
    (UnicoToken (bytes "GET /led_on") requisicao →
      processar_requisicao d requisicao len = { d with led_ligado := true }) ∧
    (UnicoToken (bytes "GET /led_off") requisicao →
      processar_requisicao d requisicao len = { d with led_ligado := false }) ∧
    (UnicoToken (bytes "GET /color_red") requisicao →
      processar_requisicao d requisicao len = { d with cor_atual := .VERMELHO }) ∧
    (UnicoToken (bytes "GET /color_green") requisicao →
      processar_requisicao d requisicao len = { d with cor_atual := .VERDE }) ∧
    (UnicoToken (bytes "GET /color_blue") requisicao →
      processar_requisicao d requisicao len = { d with cor_atual := .AZUL }) ∧
    (UnicoToken (bytes "GET /color_yellow") requisicao →
      processar_requisicao d requisicao len = { d with cor_atual := .AMARELO }) ∧
    (UnicoToken (bytes "GET /color_cyan") requisicao →
      processar_requisicao d requisicao len = { d with cor_atual := .CIANO }) ∧
    (UnicoToken (bytes "GET /color_lilas") requisicao →
      processar_requisicao d requisicao len = { d with cor_atual := .LILAS }) := by
  refine ⟨?_, ?_, ?_, ?_, ?_, ?_, ?_, ?_⟩ <;> intro h
  · exact rotear_unico (rotas.take 0) (rotas.drop 1) _ _ _ d len rfl (by decide) (by decide) h
  · exact rotear_unico (rotas.take 1) (rotas.drop 2) _ _ _ d len rfl (by decide) (by decide) h
  · exact rotear_unico (rotas.take 2) (rotas.drop 3) _ _ _ d len rfl (by decide) (by decide) h
  · exact rotear_unico (rotas.take 3) (rotas.drop 4) _ _ _ d len rfl (by decide) (by decide) h
  · exact rotear_unico (rotas.take 4) (rotas.drop 5) _ _ _ d len rfl (by decide) (by decide) h
  · exact rotear_unico (rotas.take 5) (rotas.drop 6) _ _ _ d len rfl (by decide) (by decide) h
  · exact rotear_unico (rotas.take 6) (rotas.drop 7) _ _ _ d len rfl (by decide) (by decide) h
  · exact rotear_unico (rotas.take 7) (rotas.drop 8) _ _ _ d len rfl (by decide) (by decide) h

theorem processar_requisicao_led_cor_witness :
    UnicoToken (bytes "GET /color_cyan") (bytes "GET /color_cyan? HTTP/1.1\r\n\r\n") ∧
    processar_requisicao ⟨.VERMELHO, .COZINHA, true, true⟩
      (bytes "GET /color_cyan? HTTP/1.1\r\n\r\n") 29 = ⟨.CIANO, .COZINHA, true, true⟩ :=
  ⟨by decide,
   (processar_requisicao_led_cor ⟨.VERMELHO, .COZINHA, true, true⟩
      (bytes "GET /color_cyan? HTTP/1.1\r\n\r\n") 29).2.2.2.2.2.2.1 (by decide)⟩

/-! ## HTTP surface: room selection -/

/-- C2: routing `GET /room<k>` (the only command token of the request) selects
the k-th room and forces `led_ligado = true` whatever it was, leaving colour
and emergency unchanged; hence `GET /room3`, `GET /led_off`, `GET /room3` in
sequence end with the kitchen selected and the LED flag on, from every
initial state. -/
theorem processar_requisicao_room (d : DeviceState) (requisicao : List Nat) (len : Nat) :
    (UnicoToken (bytes "GET /room1") requisicao →
      processar_requisicao d requisicao len =
        ⟨d.cor_atual, .QUARTO_1, true, d.emergencia⟩) ∧
    (UnicoToken (bytes "GET /room2") requisicao →
      processar_requisicao d requisicao len =
        ⟨d.cor_atual, .QUARTO_2, true, d.emergencia⟩) ∧
    (UnicoToken (bytes "GET /room3") requisicao →
      processar_requisicao d requisicao len =
        ⟨d.cor_atual, .COZINHA, true, d.emergencia⟩) ∧
    (UnicoToken (bytes "GET /room4") requisicao →
      processar_requisicao d requisicao len =
        ⟨d.cor_atual, .BANHEIRO, true, d.emergencia⟩) ∧
    (∀ (r1 r2 r3 : List Nat) (n1 n2 n3 : Nat),
      UnicoToken (bytes "GET /room3") r1 → UnicoToken (bytes "GET /led_off") r2 →
      UnicoToken (bytes "GET /room3") r3 →
      processar_requisicao
        (processar_requisicao (processar_requisicao d r1 n1) r2 n2) r3 n3 =
        ⟨d.cor_atual, .COZINHA, true, d.emergencia⟩) := by
  have room3 : ∀ (e : DeviceState) (r : List Nat) (n : Nat),
      UnicoToken (bytes "GET /room3") r →
      processar_requisicao e r n = ⟨e.cor_atual, .COZINHA, true, e.emergencia⟩ :=
    fun e r n h =>
      rotear_unico (rotas.take 11) (rotas.drop 12) _ _ _ e n rfl (by decide) (by decide) h
  have led_off : ∀ (e : DeviceState) (r : List Nat) (n : Nat),
      UnicoToken (bytes "GET /led_off") r →
      processar_requisicao e r n = { e with led_ligado := false } :=
    fun e r n h =>
      rotear_unico (rotas.take 1) (rotas.drop 2) _ _ _ e n rfl (by decide) (by decide) h
  refine ⟨?_, ?_, ?_, ?_, ?_⟩
  · intro h
    exact rotear_unico (rotas.take 9) (rotas.drop 10) _ _ _ d len rfl (by decide) (by decide) h
  · intro h
    exact rotear_unico (rotas.take 10) (rotas.drop 11) _ _ _ d len rfl (by decide) (by decide) h
  · exact room3 d requisicao len
  · intro h
    exact rotear_unico (rotas.take 12) (rotas.drop 13) _ _ _ d len rfl (by decide) (by decide) h
  · intro r1 r2 r3 n1 n2 n3 h1 h2 h3
    rw [room3 _ r3 n3 h3, led_off _ r2 n2 h2, room3 _ r1 n1 h1]

theorem processar_requisicao_room_witness :
    UnicoToken (bytes "GET /room3") (bytes "GET /room3 HTTP/1.1\r\n") ∧
    UnicoToken (bytes "GET /led_off") (bytes "GET /led_off HTTP/1.1\r\n") ∧
    processar_requisicao
      (processar_requisicao
        (processar_requisicao ⟨.AZUL, .QUARTO_2, false, true⟩
          (bytes "GET /room3 HTTP/1.1\r\n") 21)
        (bytes "GET /led_off HTTP/1.1\r\n") 23)
      (bytes "GET /room3 HTTP/1.1\r\n") 21 = ⟨.AZUL, .COZINHA, true, true⟩ :=
  ⟨by decide, by decide,
   (processar_requisicao_room ⟨.AZUL, .QUARTO_2, false, true⟩ [] 0).2.2.2.2
     (bytes "GET /room3 HTTP/1.1\r\n") (bytes "GET /led_off HTTP/1.1\r\n")
     (bytes "GET /room3 HTTP/1.1\r\n") 21 23 21 (by decide) (by decide) (by decide)⟩

/-! ## Unrecognised requests -/

theorem ocorre_no_buffer (token requisicao : List Nat) (h : Ocorre token requisicao) :
    token <:+: requisicao :=
  List.IsInfix.trans h (List.takeWhile_prefix _).isInfix

theorem rotear_sem_token (d : DeviceState) (requisicao : List Nat) (len : Nat)
    (h : ∀ t ∈ tokens, ¬ Ocorre t requisicao) :
    processar_requisicao d requisicao len = d := by
  rw [processar_requisicao_eq_rotear]
  refine rotear_nenhum rotas requisicao d ?_
  have hr : ∀ r ∈ rotas, cstr r.1 = r.1 ∧ r.1 ∈ tokens := by decide
  exact fun r hmem => ⟨(hr r hmem).1, h r.1 (hr r hmem).2⟩

/-- C4: a request that contains none of the 13 command tokens is a no-op of
`processar_requisicao`: the four fields of the Device State are unchanged.
This holds when no token occurs in the request string, and so also when no
token occurs anywhere in the buffer. -/
theorem processar_requisicao_sem_token (d : DeviceState) (requisicao : List Nat)
    (len : Nat) :
    ((∀ t ∈ tokens, ¬ Ocorre t requisicao) →
      processar_requisicao d requisicao len = d) ∧
    ((∀ t ∈ tokens, ¬ t <:+: requisicao) →
      processar_requisicao d requisicao len = d) :=
  ⟨rotear_sem_token d requisicao len,
   fun h => rotear_sem_token d requisicao len
     (fun t ht ho => h t ht (ocorre_no_buffer t requisicao ho))⟩

theorem processar_requisicao_sem_token_witness :
    (∀ t ∈ tokens, ¬ t <:+: bytes "GET /foo HTTP/1.1") ∧
    processar_requisicao ⟨.LILAS, .BANHEIRO, true, true⟩ (bytes "GET /foo HTTP/1.1") 17
      = ⟨.LILAS, .BANHEIRO, true, true⟩ :=
  ⟨by decide,
   (processar_requisicao_sem_token ⟨.LILAS, .BANHEIRO, true, true⟩
     (bytes "GET /foo HTTP/1.1") 17).2 (by decide)⟩

theorem takeWhile_prefix_of_all (p : Nat → Bool) (l x : List Nat) (hl : l <+: x)
    (hp : ∀ c ∈ l, p c = true) : l <+: x.takeWhile p := by
  obtain ⟨r, rfl⟩ := hl
  rw [List.takeWhile_append_of_pos hp]
  exact List.prefix_append _ _

theorem cstr_GET (resto : List Nat) :
    cstr (71 :: 69 :: 84 :: 32 :: resto) = 71 :: 69 :: 84 :: 32 :: cstr resto := by
  simp [cstr, List.takeWhile_cons]

theorem token_no_GET (t X : List Nat) (ht : t ∈ tokens)
    (h : t <:+: 71 :: 69 :: 84 :: 32 :: X) :
    (t.drop 4 ∈ caminhos ∧ t.drop 4 <+: X) ∨ t <:+: X := by
  have hshape : ∀ u ∈ tokens, u.drop 4 ∈ caminhos ∧
      u = 71 :: 69 :: 84 :: 32 :: u.drop 4 := by decide
  obtain ⟨hc, hu⟩ := hshape t ht
  rw [List.infix_cons_iff, List.infix_cons_iff, List.infix_cons_iff,
    List.infix_cons_iff] at h
  rcases h with h | h | h | h | h
  · left
    refine ⟨hc, ?_⟩
    rw [hu] at h
    simpa [List.cons_prefix_cons] using h
  · rw [hu] at h
    simp [List.cons_prefix_cons] at h
  · rw [hu] at h
    simp [List.cons_prefix_cons] at h
  · rw [hu] at h
    simp [List.cons_prefix_cons] at h
  · exact Or.inr h

/-- C5 (as stated) fails: the request path `/room10` is not one of the 13
fixed paths, yet `GET /room10 HTTP/1.1` is routed as `/room1`: it selects
room 1 and turns the LED flag on. -/
theorem processar_requisicao_caminho_room10 :
    caminho_GET (bytes "GET /room10 HTTP/1.1\r\n\r\n") = some (bytes "/room10") ∧
    bytes "/room10" ∉ caminhos ∧
    processar_requisicao ⟨.AMARELO, .COZINHA, false, false⟩
      (bytes "GET /room10 HTTP/1.1\r\n\r\n") 24 = ⟨.AMARELO, .QUARTO_1, true, false⟩ ∧
    processar_requisicao ⟨.AMARELO, .COZINHA, false, false⟩
      (bytes "GET /room10 HTTP/1.1\r\n\r\n") 24 ≠ ⟨.AMARELO, .COZINHA, false, false⟩ := by
  decide

/-- C5 (amended): a `GET` request whose request path does not begin with any
of the 13 fixed paths, and in which no command token occurs after the leading
method, is ignored: routing it leaves the Device State unchanged. -/
theorem processar_requisicao_caminho_desconhecido (d : DeviceState)
    (requisicao : List Nat) (len : Nat) (caminho : List Nat)
    (hget : caminho_GET requisicao = some caminho)
    (hpre : ∀ p ∈ caminhos, ¬ p <+: caminho)
    (hresto : ∀ t ∈ tokens, ¬ Ocorre t (requisicao.drop 4)) :
    processar_requisicao d requisicao len = d := by
  unfold caminho_GET at hget
  split at hget
  · rename_i hp
    have hcam : caminho = (requisicao.drop 4).takeWhile (fun c => c != 32) := by
      simpa using hget.symm
    have hreq : requisicao = 71 :: 69 :: 84 :: 32 :: requisicao.drop 4 := by
      obtain ⟨r, hr⟩ := List.isPrefixOf_iff_prefix.1 hp
      have hb : bytes "GET " = [71, 69, 84, 32] := by decide
      rw [hb] at hr
      rw [← hr]
      rfl
    have hsp : ∀ p ∈ caminhos, ∀ c ∈ p, (c != 32) = true := by decide
    refine rotear_sem_token d requisicao len ?_
    intro t ht ho
    have ho' : t <:+: 71 :: 69 :: 84 :: 32 :: cstr (requisicao.drop 4) := by
      have := ho
      unfold Ocorre at this
      rw [hreq, cstr_GET] at this
      simpa using this
    rcases token_no_GET t _ ht ho' with ⟨hc, hpx⟩ | hin
    · have h1 : t.drop 4 <+: requisicao.drop 4 :=
        hpx.trans (List.takeWhile_prefix _)
      have h2 := takeWhile_prefix_of_all (fun c => c != 32) _ _ h1 (hsp _ hc)
      rw [← hcam] at h2
      exact hpre _ hc h2
    · exact hresto t ht hin
  · simp at hget

theorem processar_requisicao_caminho_desconhecido_witness :
    caminho_GET (bytes "GET /foo HTTP/1.1\r\n\r\n") = some (bytes "/foo") ∧
    processar_requisicao ⟨.VERDE, .QUARTO_2, true, true⟩
      (bytes "GET /foo HTTP/1.1\r\n\r\n") 21 = ⟨.VERDE, .QUARTO_2, true, true⟩ :=
  ⟨by decide,
   processar_requisicao_caminho_desconhecido ⟨.VERDE, .QUARTO_2, true, true⟩
     (bytes "GET /foo HTTP/1.1\r\n\r\n") 21 (bytes "/foo") (by decide) (by decide)
     (by decide)⟩

/-! ## Temperature alarm -/

theorem rotear_alarm_off (d : DeviceState) (requisicao : List Nat) (len : Nat)
    (h : UnicoToken (bytes "GET /alarm_off") requisicao) :
    processar_requisicao d requisicao len = { d with emergencia := false } :=
  rotear_unico (rotas.take 8) (rotas.drop 9) _ _ _ d len rfl (by decide) (by decide) h

/-- C3: a temperature tick that samples the sensor with a reading above 40
(41.0 in particular) sets `emergencia = true` and changes no other field of
the Device State; a following `GET /alarm_off` request sets it back to
`false`, again changing nothing else, so colour, room and LED flag are what
they were before the reading. -/
theorem temperatura_alarme_e_alarm_off (s : Sistema) (agora : Nat) (temperatura : ℚ)
    (requisicao : List Nat) (len : Nat)
    (hgate : sub32 agora s.ultima_leitura_temperatura ≥ 1000)
    (htemp : temperatura > 40)
    (hreq : UnicoToken (bytes "GET /alarm_off") requisicao) :
    (verificar_temperatura s agora temperatura).dev
      = { s.dev with emergencia := true } ∧
    (verificar_temperatura s agora 41).dev = { s.dev with emergencia := true } ∧
    processar_requisicao (verificar_temperatura s agora temperatura).dev requisicao len
      = { s.dev with emergencia := false } ∧
    (processar_requisicao (verificar_temperatura s agora temperatura).dev
        requisicao len).cor_atual = s.dev.cor_atual ∧
    (processar_requisicao (verificar_temperatura s agora temperatura).dev
        requisicao len).comodo_atual = s.dev.comodo_atual ∧
    (processar_requisicao (verificar_temperatura s agora temperatura).dev
        requisicao len).led_ligado = s.dev.led_ligado := by
  have h1 : ∀ t : ℚ, t > 40 →
      (verificar_temperatura s agora t).dev = { s.dev with emergencia := true } := by
    intro t ht
    unfold verificar_temperatura
    rw [if_pos hgate, if_pos ht]
  have h2 : processar_requisicao (verificar_temperatura s agora temperatura).dev
      requisicao len = { s.dev with emergencia := false } := by
    rw [rotear_alarm_off _ _ _ hreq, h1 _ htemp]
  refine ⟨h1 _ htemp, h1 41 (by norm_num), h2, ?_, ?_, ?_⟩ <;> rw [h2]

theorem temperatura_alarme_e_alarm_off_witness :
    (verificar_temperatura
        ⟨⟨.CIANO, .BANHEIRO, true, false⟩, 0, 0, 0, 0, 0, false, false, false, false⟩
        1000 41).dev = ⟨.CIANO, .BANHEIRO, true, true⟩ ∧
    processar_requisicao
      (verificar_temperatura
        ⟨⟨.CIANO, .BANHEIRO, true, false⟩, 0, 0, 0, 0, 0, false, false, false, false⟩
        1000 41).dev
      (bytes "GET /alarm_off HTTP/1.1\r\n") 25 = ⟨.CIANO, .BANHEIRO, true, false⟩ :=
  have h := temperatura_alarme_e_alarm_off
    ⟨⟨.CIANO, .BANHEIRO, true, false⟩, 0, 0, 0, 0, 0, false, false, false, false⟩
    1000 41 (bytes "GET /alarm_off HTTP/1.1\r\n") 25 (by decide) (by norm_num) (by decide)
  ⟨h.1, h.2.2.1⟩

/-! ## Render engine -/

/-- C6: `configurar_led_rgb` drives the (red, green, blue) outputs to the
channel combination of each of the six colours when the flag is true, and to
all-off for every colour when the flag is false. -/
theorem configurar_led_rgb_tabela :
    configurar_led_rgb .VERMELHO true = (true, false, false) ∧
    configurar_led_rgb .VERDE true = (false, true, false) ∧
    configurar_led_rgb .AZUL true = (false, false, true) ∧
    configurar_led_rgb .AMARELO true = (true, true, false) ∧
    configurar_led_rgb .CIANO true = (false, true, true) ∧
    configurar_led_rgb .LILAS true = (true, false, true) ∧
    (∀ cor : Cor, configurar_led_rgb cor false = (false, false, false)) := by
  decide

/-- C7: for every Device State the 25-cell buffer of `atualizar_matriz` is:
neutral white (10,10,10), the word 657930, on the nine cross cells; on the
four cells of the active room alarm-red (32,0,0), the word 8192, under
emergency, otherwise the colour triple at intensity 32 when the LED flag is
on, otherwise zero; zero everywhere else. A word carries red in bits 8-15,
green in bits 16-23 and blue in bits 0-7, and the word sent for a cell is the
cell shifted left by 8 bits. The cross cells and the cells of any room are
disjoint. -/
theorem pixels_matriz_celulas (d : DeviceState) :
    (pixels_matriz d).length = 25 ∧
    (∀ i : Fin 25,
      (pixels_matriz d).getD i.val 0 =
        if i.val ∈ [22, 17, 12, 7, 2, 14, 13, 11, 10] then 657930
        else if i.val ∈ (match d.comodo_atual with
            | .QUARTO_1 => [24, 23, 15, 16]
            | .QUARTO_2 => [21, 20, 18, 19]
            | .COZINHA => [5, 6, 4, 3]
            | .BANHEIRO => [8, 9, 1, 0]) then
          (if d.emergencia then 8192
           else if d.led_ligado then
             (match d.cor_atual with
              | .VERMELHO => 8192
              | .VERDE => 2097152
              | .AZUL => 32
              | .AMARELO => 2105344
              | .CIANO => 2097184
              | .LILAS => 8224)
           else 0)
        else 0) ∧
    (∀ i : Fin 25,
      ((pixels_matriz d).getD i.val 0 / 256 % 256,
       (pixels_matriz d).getD i.val 0 / 65536 % 256,
       (pixels_matriz d).getD i.val 0 % 256) =
        if i.val ∈ [22, 17, 12, 7, 2, 14, 13, 11, 10] then (10, 10, 10)
        else if i.val ∈ (match d.comodo_atual with
            | .QUARTO_1 => [24, 23, 15, 16]
            | .QUARTO_2 => [21, 20, 18, 19]
            | .COZINHA => [5, 6, 4, 3]
            | .BANHEIRO => [8, 9, 1, 0]) then
          (if d.emergencia then (32, 0, 0)
           else if d.led_ligado then
             (match d.cor_atual with
              | .VERMELHO => (32, 0, 0)
              | .VERDE => (0, 32, 0)
              | .AZUL => (0, 0, 32)
              | .AMARELO => (32, 32, 0)
              | .CIANO => (0, 32, 32)
              | .LILAS => (32, 0, 32))
           else (0, 0, 0))
        else (0, 0, 0)) ∧
    (atualizar_matriz d).length = 25 ∧
    (∀ i : Fin 25,
      (atualizar_matriz d).getD i.val 0 = (pixels_matriz d).getD i.val 0 * 256) ∧
    (∀ sala ∈ comodos, ∀ i ∈ sala, i ∉ cruz) ∧
    cruz = [22, 17, 12, 7, 2, 14, 13, 11, 10] ∧
    comodos.getD d.comodo_atual.toNat [] =
      (match d.comodo_atual with
            | .QUARTO_1 => [24, 23, 15, 16]
            | .QUARTO_2 => [21, 20, 18, 19]
            | .COZINHA => [5, 6, 4, 3]
            | .BANHEIRO => [8, 9, 1, 0]) := by
  obtain ⟨c, r, l, e⟩ := d
  cases c <;> cases r <;> cases l <;> cases e <;> decide

theorem pixels_matriz_emergencia (d : DeviceState) (h : d.emergencia = true) :
    pixels_matriz d = pixels_matriz ⟨.VERMELHO, d.comodo_atual, false, true⟩ := by
  obtain ⟨c, r, l, e⟩ := d
  simp only at h
  subst h
  cases c <;> cases r <;> cases l <;> decide

theorem renderizar_emergencia_eq (s : Sistema) (h : s.dev.emergencia = true) :
    (renderizar s).2 =
      { led_rgb := (false, false, false)
        pixels := pixels_matriz ⟨.VERMELHO, s.dev.comodo_atual, false, true⟩
        ws2812 := atualizar_matriz ⟨.VERMELHO, s.dev.comodo_atual, false, true⟩ } := by
  have hp := pixels_matriz_emergencia s.dev h
  have hl : configurar_led_rgb s.dev.cor_atual false = (false, false, false) := by
    cases s.dev.cor_atual <;> decide
  simp only [renderizar, atualizar_matriz, h, hp, hl, Bool.not_true, Bool.false_eq_true,
    if_false]

theorem matriz_emergencia_valores (c : Cor) (r : Comodo) (l : Bool) :
    configurar_led_rgb c false = (false, false, false) ∧
    (pixels_matriz ⟨c, r, l, true⟩).length = 25 ∧
    (atualizar_matriz ⟨c, r, l, true⟩).length = 25 ∧
    (∀ i : Fin 25,
      (pixels_matriz ⟨c, r, l, true⟩).getD i.val 0 =
        if i.val ∈ [22, 17, 12, 7, 2, 14, 13, 11, 10] then 657930
        else if i.val ∈ (match r with
            | .QUARTO_1 => [24, 23, 15, 16]
            | .QUARTO_2 => [21, 20, 18, 19]
            | .COZINHA => [5, 6, 4, 3]
            | .BANHEIRO => [8, 9, 1, 0]) then 8192
        else 0) ∧
    (∀ i : Fin 25,
      (atualizar_matriz ⟨c, r, l, true⟩).getD i.val 0 =
        if i.val ∈ [22, 17, 12, 7, 2, 14, 13, 11, 10] then 168430080
        else if i.val ∈ (match r with
            | .QUARTO_1 => [24, 23, 15, 16]
            | .QUARTO_2 => [21, 20, 18, 19]
            | .COZINHA => [5, 6, 4, 3]
            | .BANHEIRO => [8, 9, 1, 0]) then 2097152
        else 0) := by
  cases c <;> cases r <;> cases l <;> decide

theorem matriz_normal_valores (c : Cor) (r : Comodo) (l : Bool) :
    (configurar_led_rgb c l =
      if l then
        (match c with
              | .VERMELHO => (true, false, false)
              | .VERDE => (false, true, false)
              | .AZUL => (false, false, true)
              | .AMARELO => (true, true, false)
              | .CIANO => (false, true, true)
              | .LILAS => (true, false, true))
      else (false, false, false)) ∧
    (∀ i : Fin 25,
      (pixels_matriz ⟨c, r, l, false⟩).getD i.val 0 =
        if i.val ∈ [22, 17, 12, 7, 2, 14, 13, 11, 10] then 657930
        else if i.val ∈ (match r with
            | .QUARTO_1 => [24, 23, 15, 16]
            | .QUARTO_2 => [21, 20, 18, 19]
            | .COZINHA => [5, 6, 4, 3]
            | .BANHEIRO => [8, 9, 1, 0]) then
          (if l then
             (match c with
              | .VERMELHO => 8192
              | .VERDE => 2097152
              | .AZUL => 32
              | .AMARELO => 2105344
              | .CIANO => 2097184
              | .LILAS => 8224)
           else 0)
        else 0) ∧
    (∀ i : Fin 25,
      (atualizar_matriz ⟨c, r, l, false⟩).getD i.val 0 =
        if i.val ∈ [22, 17, 12, 7, 2, 14, 13, 11, 10] then 168430080
        else if i.val ∈ (match r with
            | .QUARTO_1 => [24, 23, 15, 16]
            | .QUARTO_2 => [21, 20, 18, 19]
            | .COZINHA => [5, 6, 4, 3]
            | .BANHEIRO => [8, 9, 1, 0]) then
          (if l then
             (match c with
              | .VERMELHO => 2097152
              | .VERDE => 536870912
              | .AZUL => 8192
              | .AMARELO => 538968064
              | .CIANO => 536879104
              | .LILAS => 2105344)
           else 0)
        else 0) := by
  cases c <;> cases r <;> cases l <;> decide

/-- C8: under emergency the render step of the main loop does not depend on
colour or LED flag: two states with `emergencia = true` and the same room
render the same output, namely the RGB LED all-off and the matrix showing the
cross in white (cell word 657930, sent as 168430080) plus the active room in
alarm-red (cell word 8192, sent as 2097152), every other cell zero. The
render step returns the state it was given, so colour and LED flag are
retained, and once emergency is cleared the render is the normal one for the
retained colour and LED flag: the RGB LED shows the colour when the flag is
on, and the room cells carry the colour word when the flag is on and zero
otherwise. -/
theorem renderizar_emergencia (s1 s2 : Sistema)
    (h1 : s1.dev.emergencia = true) (h2 : s2.dev.emergencia = true)
    (hroom : s1.dev.comodo_atual = s2.dev.comodo_atual) :
    (renderizar s1).2 = (renderizar s2).2 ∧
    (renderizar s1).2.led_rgb = (false, false, false) ∧
    (renderizar s1).2.pixels.length = 25 ∧
    (renderizar s1).2.ws2812.length = 25 ∧
    (∀ i : Fin 25,
      (renderizar s1).2.pixels.getD i.val 0 =
        if i.val ∈ [22, 17, 12, 7, 2, 14, 13, 11, 10] then 657930
        else if i.val ∈ (match s1.dev.comodo_atual with
            | .QUARTO_1 => [24, 23, 15, 16]
            | .QUARTO_2 => [21, 20, 18, 19]
            | .COZINHA => [5, 6, 4, 3]
            | .BANHEIRO => [8, 9, 1, 0]) then 8192
        else 0) ∧
    (∀ i : Fin 25,
      (renderizar s1).2.ws2812.getD i.val 0 =
        if i.val ∈ [22, 17, 12, 7, 2, 14, 13, 11, 10] then 168430080
        else if i.val ∈ (match s1.dev.comodo_atual with
            | .QUARTO_1 => [24, 23, 15, 16]
            | .QUARTO_2 => [21, 20, 18, 19]
            | .COZINHA => [5, 6, 4, 3]
            | .BANHEIRO => [8, 9, 1, 0]) then 2097152
        else 0) ∧
    (renderizar s1).1 = s1 ∧
    (renderizar s1).1.dev.cor_atual = s1.dev.cor_atual ∧
    (renderizar s1).1.dev.led_ligado = s1.dev.led_ligado ∧
    (renderizar { s1 with dev := { s1.dev with emergencia := false } }).2.led_rgb =
      (if s1.dev.led_ligado then
        (match s1.dev.cor_atual with
              | .VERMELHO => (true, false, false)
              | .VERDE => (false, true, false)
              | .AZUL => (false, false, true)
              | .AMARELO => (true, true, false)
              | .CIANO => (false, true, true)
              | .LILAS => (true, false, true))
      else (false, false, false)) ∧
    (∀ i : Fin 25,
      (renderizar { s1 with dev := { s1.dev with emergencia := false } }).2.pixels.getD
          i.val 0 =
        if i.val ∈ [22, 17, 12, 7, 2, 14, 13, 11, 10] then 657930
        else if i.val ∈ (match s1.dev.comodo_atual with
            | .QUARTO_1 => [24, 23, 15, 16]
            | .QUARTO_2 => [21, 20, 18, 19]
            | .COZINHA => [5, 6, 4, 3]
            | .BANHEIRO => [8, 9, 1, 0]) then
          (if s1.dev.led_ligado then
             (match s1.dev.cor_atual with
              | .VERMELHO => 8192
              | .VERDE => 2097152
              | .AZUL => 32
              | .AMARELO => 2105344
              | .CIANO => 2097184
              | .LILAS => 8224)
           else 0)
        else 0) ∧
    (∀ i : Fin 25,
      (renderizar { s1 with dev := { s1.dev with emergencia := false } }).2.ws2812.getD
          i.val 0 =
        if i.val ∈ [22, 17, 12, 7, 2, 14, 13, 11, 10] then 168430080
        else if i.val ∈ (match s1.dev.comodo_atual with
            | .QUARTO_1 => [24, 23, 15, 16]
            | .QUARTO_2 => [21, 20, 18, 19]
            | .COZINHA => [5, 6, 4, 3]
            | .BANHEIRO => [8, 9, 1, 0]) then
          (if s1.dev.led_ligado then
             (match s1.dev.cor_atual with
              | .VERMELHO => 2097152
              | .VERDE => 536870912
              | .AZUL => 8192
              | .AMARELO => 538968064
              | .CIANO => 536879104
              | .LILAS => 2105344)
           else 0)
        else 0) := by
  have heq : (renderizar s1).2 = (renderizar s2).2 := by
    rw [renderizar_emergencia_eq s1 h1, renderizar_emergencia_eq s2 h2, hroom]
  obtain ⟨⟨c, r, l, e⟩, _, _, _, _, _, _, _, _, _⟩ := s1
  simp only at h1
  subst h1
  obtain ⟨e1, e2, e3, e4, e5⟩ := matriz_emergencia_valores c r l
  obtain ⟨n1, n2, n3⟩ := matriz_normal_valores c r l
  exact ⟨heq, e1, e2, e3, e4, e5, rfl, rfl, rfl, n1, n2, n3⟩

theorem renderizar_emergencia_witness :
    (renderizar
      ⟨⟨.VERDE, .COZINHA, true, true⟩, 0, 0, 0, 0, 0, false, false, false, false⟩).2 =
    (renderizar
      ⟨⟨.LILAS, .COZINHA, false, true⟩, 7, 7, 7, 7, 7, true, false, false, true⟩).2 :=
  (renderizar_emergencia
    ⟨⟨.VERDE, .COZINHA, true, true⟩, 0, 0, 0, 0, 0, false, false, false, false⟩
    ⟨⟨.LILAS, .COZINHA, false, true⟩, 7, 7, 7, 7, 7, true, false, false, true⟩
    rfl rfl rfl).1

/-! ## Emergency is cleared only by explicit action -/

theorem botao_joystick_emergencia (s : Sistema) (b : Bool) :
    (botao_joystick s b).dev.emergencia = s.dev.emergencia ∧
    (botao_joystick s b).botao_b_pressionado = s.botao_b_pressionado := by
  unfold botao_joystick
  split_ifs <;> exact ⟨rfl, rfl⟩

theorem botao_a_emergencia (s : Sistema) (agora : Nat) (b : Bool) :
    (botao_a s agora b).dev.emergencia = s.dev.emergencia ∧
    (botao_a s agora b).botao_b_pressionado = s.botao_b_pressionado := by
  unfold botao_a
  split_ifs <;> exact ⟨rfl, rfl⟩

theorem botao_b_emergencia (s : Sistema) (b : Bool)
    (h : s.dev.emergencia = true) (h' : (botao_b s b).dev.emergencia = false) :
    b = true ∧ s.botao_b_pressionado = false := by
  unfold botao_b at h'
  split_ifs at h' with h1 h2
  · simpa using h1
  · simp [h] at h'
  · simp [h] at h'

theorem verificar_temperatura_emergencia (s : Sistema) (agora : Nat) (t : ℚ)
    (h : s.dev.emergencia = true) :
    (verificar_temperatura s agora t).dev.emergencia = true := by
  unfold verificar_temperatura
  split_ifs <;> first | exact h | rfl

theorem verificar_oled_dev (s : Sistema) (agora : Nat) :
    (verificar_oled s agora).dev = s.dev := by
  unfold verificar_oled
  split_ifs <;> rfl

theorem controlar_buzzer_dev (s : Sistema) (agora : Nat) :
    (controlar_buzzer s agora).dev = s.dev := by
  unfold controlar_buzzer
  split_ifs <;> rfl

theorem main_loop_dev (s : Sistema) (agora : Nat) (gj ga gb : Bool) (t : ℚ) :
    (main_loop s agora gj ga gb t).1.dev =
      (verificar_temperatura (verificar_botoes s agora gj ga gb) agora t).dev := by
  simp only [main_loop, renderizar, controlar_buzzer_dev, verificar_oled_dev]

theorem ite_emergencia {c : Prop} [Decidable c] (d x y : DeviceState)
    (h : d.emergencia = true) (h' : (if c then x else y).emergencia = false)
    (hx : x.emergencia = d.emergencia) : ¬ c ∧ y.emergencia = false := by
  by_cases hc : c
  · rw [if_pos hc, hx, h] at h'
    exact Bool.noConfusion h'
  · rw [if_neg hc] at h'
    exact ⟨hc, h'⟩

theorem processar_requisicao_limpa (d : DeviceState) (requisicao : List Nat) (len : Nat)
    (h : d.emergencia = true)
    (h' : (processar_requisicao d requisicao len).emergencia = false) :
    Ocorre (bytes "GET /alarm_off") requisicao ∧
    (∀ t ∈ tokens.take 8, ¬ Ocorre t requisicao) ∧
    processar_requisicao d requisicao len = { d with emergencia := false } := by
  have e : ∀ t, cstr t = t →
      ((strstr requisicao t).isSome = true ↔ Ocorre t requisicao) :=
    fun t ht => strstr_isSome requisicao t ht
  have hdef := h'
  unfold processar_requisicao at hdef
  obtain ⟨h1, hdef⟩ := ite_emergencia d _ _ h hdef rfl
  obtain ⟨h2, hdef⟩ := ite_emergencia d _ _ h hdef rfl
  obtain ⟨h3, hdef⟩ := ite_emergencia d _ _ h hdef rfl
  obtain ⟨h4, hdef⟩ := ite_emergencia d _ _ h hdef rfl
  obtain ⟨h5, hdef⟩ := ite_emergencia d _ _ h hdef rfl
  obtain ⟨h6, hdef⟩ := ite_emergencia d _ _ h hdef rfl
  obtain ⟨h7, hdef⟩ := ite_emergencia d _ _ h hdef rfl
  obtain ⟨h8, hdef⟩ := ite_emergencia d _ _ h hdef rfl
  have h9 : (strstr requisicao (bytes "GET /alarm_off")).isSome = true := by
    by_contra h9
    rw [if_neg h9] at hdef
    obtain ⟨_, hdef⟩ := ite_emergencia d _ _ h hdef rfl
    obtain ⟨_, hdef⟩ := ite_emergencia d _ _ h hdef rfl
    obtain ⟨_, hdef⟩ := ite_emergencia d _ _ h hdef rfl
    obtain ⟨_, hdef⟩ := ite_emergencia d _ _ h hdef rfl
    rw [h] at hdef
    exact Bool.noConfusion hdef
  refine ⟨(e _ (by decide)).1 h9, ?_, ?_⟩
  · intro t ht
    have hmem : t ∈ [bytes "GET /led_on", bytes "GET /led_off", bytes "GET /color_red",
        bytes "GET /color_green", bytes "GET /color_blue", bytes "GET /color_yellow",
        bytes "GET /color_cyan", bytes "GET /color_lilas"] := ht
    simp only [List.mem_cons, List.mem_singleton, List.not_mem_nil, or_false] at hmem
    rcases hmem with rfl | rfl | rfl | rfl | rfl | rfl | rfl | rfl
    · exact fun ho => h1 ((e _ (by decide)).2 ho)
    · exact fun ho => h2 ((e _ (by decide)).2 ho)
    · exact fun ho => h3 ((e _ (by decide)).2 ho)
    · exact fun ho => h4 ((e _ (by decide)).2 ho)
    · exact fun ho => h5 ((e _ (by decide)).2 ho)
    · exact fun ho => h6 ((e _ (by decide)).2 ho)
    · exact fun ho => h7 ((e _ (by decide)).2 ho)
    · exact fun ho => h8 ((e _ (by decide)).2 ho)
  · unfold processar_requisicao
    rw [if_neg h1, if_neg h2, if_neg h3, if_neg h4, if_neg h5, if_neg h6, if_neg h7,
      if_neg h8, if_pos h9]

/-- C9: emergency is clearable only by explicit user action. A main-loop
iteration (any clock value, pin levels and temperature reading) that starts
with `emergencia = true` and ends with it `false` ran the button tick with
Button B pressed and its previous sample not pressed; an HTTP receive that
does so carried data whose request string is routed as `GET /alarm_off` (the
token occurs and none of the eight tokens tested before it does). A
temperature tick never clears emergency, whatever the reading. -/
theorem emergencia_so_por_acao_explicita :
    (∀ (s : Sistema) (agora : Nat) (gpio_joystick gpio_a gpio_b : Bool) (temperatura : ℚ),
      s.dev.emergencia = true →
      (main_loop s agora gpio_joystick gpio_a gpio_b temperatura).1.dev.emergencia = false →
      sub32 agora s.ultimo_botao ≥ 10 ∧ gpio_b = false ∧ s.botao_b_pressionado = false) ∧
    (∀ (d : DeviceState) (p : Option (List Nat)) (temp_txt : List Nat),
      d.emergencia = true →
      (tcp_server_recv d p temp_txt).1.emergencia = false →
      ∃ payload, p = some payload ∧
        Ocorre (bytes "GET /alarm_off")
          (payload.take (if payload.length < 255 then payload.length else 255) ++ [0]) ∧
        (∀ t ∈ tokens.take 8, ¬ Ocorre t
          (payload.take (if payload.length < 255 then payload.length else 255) ++ [0])) ∧
        (tcp_server_recv d p temp_txt).1 = { d with emergencia := false }) ∧
    (∀ (s : Sistema) (agora : Nat) (temperatura : ℚ),
      s.dev.emergencia = true →
      (verificar_temperatura s agora temperatura).dev.emergencia = true) := by
  refine ⟨?_, ?_, verificar_temperatura_emergencia⟩
  · intro s agora gj ga gb t h h'
    rw [main_loop_dev] at h'
    by_cases hg : sub32 agora s.ultimo_botao ≥ 10
    · refine ⟨hg, ?_⟩
      have hb : (verificar_botoes s agora gj ga gb).dev.emergencia = false := by
        by_contra hne
        have := verificar_temperatura_emergencia _ agora t (by simpa using hne)
        rw [this] at h'
        exact Bool.noConfusion h'
      simp only [verificar_botoes, if_pos hg, amostrar_botoes] at hb
      have hj := botao_joystick_emergencia s (!gj)
      have ha := botao_a_emergencia (botao_joystick s (!gj)) agora (!ga)
      have := botao_b_emergencia (botao_a (botao_joystick s (!gj)) agora (!ga)) (!gb)
        (by rw [ha.1, hj.1, h]) hb
      rw [ha.2, hj.2] at this
      exact ⟨by simpa using this.1, this.2⟩
    · exfalso
      have := verificar_temperatura_emergencia (verificar_botoes s agora gj ga gb) agora t
        (by simp only [verificar_botoes, if_neg hg, h])
      rw [this] at h'
      exact Bool.noConfusion h'
  · intro d p temp_txt h h'
    cases p with
    | none =>
      simp only [tcp_server_recv] at h'
      rw [h] at h'
      exact Bool.noConfusion h'
    | some payload =>
      simp only [tcp_server_recv] at h' ⊢
      obtain ⟨a, b, c⟩ := processar_requisicao_limpa d _ _ h h'
      exact ⟨payload, rfl, a, b, c⟩

theorem emergencia_so_por_acao_explicita_witness :
    (main_loop
      ⟨⟨.AZUL, .QUARTO_1, true, true⟩, 0, 0, 0, 0, 0, false, false, false, false⟩
      10 true true false 25).1.dev.emergencia = false ∧
    (sub32 10 0 ≥ 10 ∧ false = false ∧ false = false) :=
  have h : (main_loop
      ⟨⟨.AZUL, .QUARTO_1, true, true⟩, 0, 0, 0, 0, 0, false, false, false, false⟩
      10 true true false 25).1.dev.emergencia = false := by
    rw [main_loop_dev]
    have h25 : ¬ ((25 : ℚ) > 40) := by norm_num
    simp [verificar_temperatura, verificar_botoes, amostrar_botoes, botao_joystick,
      botao_a, botao_b, sub32, h25]
  ⟨h, emergencia_so_por_acao_explicita.1
      ⟨⟨.AZUL, .QUARTO_1, true, true⟩, 0, 0, 0, 0, 0, false, false, false, false⟩
      10 true true false 25 rfl h⟩

/-! ## Button A: short press against long press -/

theorem sub32_decorrido (t0 e : Nat) (he : e < 4294967296) :
    sub32 ((t0 + e) % 4294967296) t0 = e := by
  unfold sub32
  omega

theorem botao_joystick_A (s : Sistema) (b : Bool) :
    (botao_joystick s b).dev.comodo_atual = s.dev.comodo_atual ∧
    (botao_joystick s b).dev.led_ligado = s.dev.led_ligado ∧
    (botao_joystick s b).botao_a_pressionado = s.botao_a_pressionado ∧
    (botao_joystick s b).botao_a_pressao_inicio = s.botao_a_pressao_inicio := by
  unfold botao_joystick
  split_ifs <;> exact ⟨rfl, rfl, rfl, rfl⟩

theorem botao_b_A (s : Sistema) (b : Bool) :
    (botao_b s b).dev.comodo_atual = s.dev.comodo_atual ∧
    (botao_b s b).dev.led_ligado = s.dev.led_ligado ∧
    (botao_b s b).botao_a_pressionado = s.botao_a_pressionado ∧
    (botao_b s b).botao_a_pressao_inicio = s.botao_a_pressao_inicio := by
  unfold botao_b
  split_ifs <;> exact ⟨rfl, rfl, rfl, rfl⟩

theorem amostrar_botoes_A (s : Sistema) (agora : Nat) (gj ga gb : Bool) :
    (amostrar_botoes s agora gj ga gb).dev.comodo_atual
      = (botao_a (botao_joystick s (!gj)) agora (!ga)).dev.comodo_atual ∧
    (amostrar_botoes s agora gj ga gb).dev.led_ligado
      = (botao_a (botao_joystick s (!gj)) agora (!ga)).dev.led_ligado ∧
    (amostrar_botoes s agora gj ga gb).botao_a_pressionado
      = (botao_a (botao_joystick s (!gj)) agora (!ga)).botao_a_pressionado ∧
    (amostrar_botoes s agora gj ga gb).botao_a_pressao_inicio
      = (botao_a (botao_joystick s (!gj)) agora (!ga)).botao_a_pressao_inicio :=
  botao_b_A (botao_a (botao_joystick s (!gj)) agora (!ga)) (!gb)

theorem amostrar_pressionar (s : Sistema) (agora : Nat) (gj gb : Bool)
    (h : s.botao_a_pressionado = false) :
    (amostrar_botoes s agora gj false gb).botao_a_pressionado = true ∧
    (amostrar_botoes s agora gj false gb).botao_a_pressao_inicio = agora ∧
    (amostrar_botoes s agora gj false gb).dev.comodo_atual = s.dev.comodo_atual ∧
    (amostrar_botoes s agora gj false gb).dev.led_ligado = s.dev.led_ligado := by
  obtain ⟨a1, a2, a3, a4⟩ := amostrar_botoes_A s agora gj false gb
  obtain ⟨j1, j2, j3, _⟩ := botao_joystick_A s (!gj)
  rw [a1, a2, a3, a4, ← j1, ← j2]
  rw [h] at j3
  unfold botao_a
  simp [j3]

theorem amostrar_segurar_curto (s : Sistema) (agora : Nat) (gj gb : Bool)
    (h : s.botao_a_pressionado = true)
    (ht : sub32 agora s.botao_a_pressao_inicio < 3000) :
    (amostrar_botoes s agora gj false gb).botao_a_pressionado = true ∧
    (amostrar_botoes s agora gj false gb).botao_a_pressao_inicio
      = s.botao_a_pressao_inicio ∧
    (amostrar_botoes s agora gj false gb).dev.comodo_atual = s.dev.comodo_atual ∧
    (amostrar_botoes s agora gj false gb).dev.led_ligado = s.dev.led_ligado := by
  obtain ⟨a1, a2, a3, a4⟩ := amostrar_botoes_A s agora gj false gb
  obtain ⟨j1, j2, j3, j4⟩ := botao_joystick_A s (!gj)
  rw [a1, a2, a3, a4, ← j1, ← j2, ← j4]
  rw [h] at j3
  rw [← j4] at ht
  have ht' : ¬ (3000 ≤ sub32 agora (botao_joystick s (!gj)).botao_a_pressao_inicio) := by
    omega
  unfold botao_a
  simp [j3, ht']

theorem amostrar_segurar_longo (s : Sistema) (agora : Nat) (gj gb : Bool)
    (h : s.botao_a_pressionado = true)
    (ht : sub32 agora s.botao_a_pressao_inicio ≥ 3000) :
    (amostrar_botoes s agora gj false gb).botao_a_pressionado = true ∧
    (amostrar_botoes s agora gj false gb).botao_a_pressao_inicio
      = s.botao_a_pressao_inicio ∧
    (amostrar_botoes s agora gj false gb).dev.comodo_atual = s.dev.comodo_atual ∧
    (amostrar_botoes s agora gj false gb).dev.led_ligado = false := by
  obtain ⟨a1, a2, a3, a4⟩ := amostrar_botoes_A s agora gj false gb
  obtain ⟨j1, _, j3, j4⟩ := botao_joystick_A s (!gj)
  rw [a1, a2, a3, a4, ← j1, ← j4]
  rw [h] at j3
  rw [← j4] at ht
  have ht' : 3000 ≤ sub32 agora (botao_joystick s (!gj)).botao_a_pressao_inicio := ht
  unfold botao_a
  simp [j3, ht']

theorem amostrar_soltar_curto (s : Sistema) (agora : Nat) (gj gb : Bool)
    (h : s.botao_a_pressionado = true)
    (ht : sub32 agora s.botao_a_pressao_inicio < 3000) :
    (amostrar_botoes s agora gj true gb).dev.comodo_atual
      = Comodo.fromNat ((s.dev.comodo_atual.toNat + 1) % 4) ∧
    (amostrar_botoes s agora gj true gb).dev.led_ligado = true ∧
    (amostrar_botoes s agora gj true gb).botao_a_pressionado = false := by
  obtain ⟨a1, a2, a3, _⟩ := amostrar_botoes_A s agora gj true gb
  obtain ⟨j1, _, j3, j4⟩ := botao_joystick_A s (!gj)
  rw [a1, a2, a3, ← j1]
  rw [h] at j3
  rw [← j4] at ht
  unfold botao_a
  simp [j3, ht]

theorem amostrar_soltar_longo (s : Sistema) (agora : Nat) (gj gb : Bool)
    (h : s.botao_a_pressionado = true)
    (ht : sub32 agora s.botao_a_pressao_inicio ≥ 3000) :
    (amostrar_botoes s agora gj true gb).dev.comodo_atual = s.dev.comodo_atual ∧
    (amostrar_botoes s agora gj true gb).dev.led_ligado = s.dev.led_ligado ∧
    (amostrar_botoes s agora gj true gb).botao_a_pressionado = false := by
  obtain ⟨a1, a2, a3, _⟩ := amostrar_botoes_A s agora gj true gb
  obtain ⟨j1, j2, j3, j4⟩ := botao_joystick_A s (!gj)
  rw [a1, a2, a3, ← j1, ← j2]
  rw [h] at j3
  rw [← j4] at ht
  have ht' : ¬ (sub32 agora (botao_joystick s (!gj)).botao_a_pressao_inicio < 3000) := by
    omega
  unfold botao_a
  simp [j3, ht']

theorem segurar_curto (t0 : Nat) (xs : List (Nat × Bool × Bool)) (s : Sistema)
    (hp : s.botao_a_pressionado = true) (hi : s.botao_a_pressao_inicio = t0)
    (hxs : ∀ x ∈ xs, x.1 < 3000) :
    (segurar t0 s xs).botao_a_pressionado = true ∧
    (segurar t0 s xs).botao_a_pressao_inicio = t0 ∧
    (segurar t0 s xs).dev.comodo_atual = s.dev.comodo_atual ∧
    (segurar t0 s xs).dev.led_ligado = s.dev.led_ligado := by
  induction xs generalizing s with
  | nil => exact ⟨hp, hi, rfl, rfl⟩
  | cons x r ih =>
    have hx : x.1 < 3000 := hxs x (List.mem_cons_self _ _)
    have hsub : sub32 ((t0 + x.1) % 4294967296) s.botao_a_pressao_inicio < 3000 := by
      rw [hi, sub32_decorrido t0 x.1 (by omega)]
      exact hx
    obtain ⟨b1, b2, b3, b4⟩ :=
      amostrar_segurar_curto s ((t0 + x.1) % 4294967296) x.2.1 x.2.2 hp hsub
    obtain ⟨c1, c2, c3, c4⟩ := ih _ b1 (b2.trans hi)
      (fun y hy => hxs y (List.mem_cons_of_mem _ hy))
    exact ⟨c1, c2, c3.trans b3, c4.trans b4⟩

theorem segurar_longo (t0 : Nat) (xs : List (Nat × Bool × Bool)) (s : Sistema)
    (hp : s.botao_a_pressionado = true) (hi : s.botao_a_pressao_inicio = t0)
    (hl : s.dev.led_ligado = false)
    (hxs : ∀ x ∈ xs, 3000 ≤ x.1 ∧ x.1 < 4294967296) :
    (segurar t0 s xs).botao_a_pressionado = true ∧
    (segurar t0 s xs).botao_a_pressao_inicio = t0 ∧
    (segurar t0 s xs).dev.comodo_atual = s.dev.comodo_atual ∧
    (segurar t0 s xs).dev.led_ligado = false := by
  induction xs generalizing s with
  | nil => exact ⟨hp, hi, rfl, hl⟩
  | cons x r ih =>
    have hx := hxs x (List.mem_cons_self _ _)
    have hsub : sub32 ((t0 + x.1) % 4294967296) s.botao_a_pressao_inicio ≥ 3000 := by
      rw [hi, sub32_decorrido t0 x.1 hx.2]
      exact hx.1
    obtain ⟨b1, b2, b3, b4⟩ :=
      amostrar_segurar_longo s ((t0 + x.1) % 4294967296) x.2.1 x.2.2 hp hsub
    obtain ⟨c1, c2, c3, c4⟩ := ih _ b1 (b2.trans hi) b4
      (fun y hy => hxs y (List.mem_cons_of_mem _ hy))
    exact ⟨c1, c2, c3.trans b3, c4⟩

/-- C10: Button A, short press against long press, for every press-start
time `t0` of the millisecond counter (times are taken modulo `2^32`, so
`t0 + 3000` may wrap). The control is first sampled pressed at time `t0` and
then sampled held at any ticks less than 3000 ms after `t0`. If the next
sample, at `t0 + 2999`, sees it released, the room becomes `(room + 1) mod 4`
and the LED flag `true`. If instead the sample at `t0 + 3000` still sees it
held, that sample sets the LED flag `false` and leaves the room alone; after
any further held samples, the release (at an elapsed time from 3000 ms up to
the range of the 32-bit counter) leaves the room unchanged and the LED flag
`false`. -/
theorem botao_a_pressao_curta_e_longa (s : Sistema) (t0 : Nat)
    (gj gb gj1 gb1 : Bool) (antes : List (Nat × Bool × Bool))
    (hsolto : s.botao_a_pressionado = false)
    (hantes : ∀ x ∈ antes, x.1 < 3000) :
    ((amostrar_botoes (segurar t0 (amostrar_botoes s t0 gj false gb) antes)
        ((t0 + 2999) % 4294967296) gj1 true gb1).dev.comodo_atual
      = Comodo.fromNat ((s.dev.comodo_atual.toNat + 1) % 4) ∧
     (amostrar_botoes (segurar t0 (amostrar_botoes s t0 gj false gb) antes)
        ((t0 + 2999) % 4294967296) gj1 true gb1).dev.led_ligado = true) ∧
    ((amostrar_botoes (segurar t0 (amostrar_botoes s t0 gj false gb) antes)
        ((t0 + 3000) % 4294967296) gj1 false gb1).dev.led_ligado = false ∧
     (amostrar_botoes (segurar t0 (amostrar_botoes s t0 gj false gb) antes)
        ((t0 + 3000) % 4294967296) gj1 false gb1).dev.comodo_atual
      = s.dev.comodo_atual ∧
     ∀ (depois : List (Nat × Bool × Bool)) (e : Nat) (gj2 gb2 : Bool),
       (∀ x ∈ depois, 3000 ≤ x.1 ∧ x.1 < 4294967296) →
       3000 ≤ e → e < 4294967296 →
       (amostrar_botoes
          (segurar t0
            (amostrar_botoes (segurar t0 (amostrar_botoes s t0 gj false gb) antes)
              ((t0 + 3000) % 4294967296) gj1 false gb1) depois)
          ((t0 + e) % 4294967296) gj2 true gb2).dev.comodo_atual = s.dev.comodo_atual ∧
       (amostrar_botoes
          (segurar t0
            (amostrar_botoes (segurar t0 (amostrar_botoes s t0 gj false gb) antes)
              ((t0 + 3000) % 4294967296) gj1 false gb1) depois)
          ((t0 + e) % 4294967296) gj2 true gb2).dev.led_ligado = false) := by
  obtain ⟨p1, p2, p3, p4⟩ := amostrar_pressionar s t0 gj gb hsolto
  obtain ⟨q1, q2, q3, q4⟩ :=
    segurar_curto t0 antes (amostrar_botoes s t0 gj false gb) p1 p2 hantes
  generalize segurar t0 (amostrar_botoes s t0 gj false gb) antes = s2 at q1 q2 q3 q4 ⊢
  have hq3 : s2.dev.comodo_atual = s.dev.comodo_atual := q3.trans p3
  refine ⟨?_, ?_⟩
  · have hsub : sub32 ((t0 + 2999) % 4294967296) s2.botao_a_pressao_inicio < 3000 := by
      rw [q2, sub32_decorrido t0 2999 (by omega)]
      omega
    obtain ⟨r1, r2, _⟩ :=
      amostrar_soltar_curto s2 ((t0 + 2999) % 4294967296) gj1 gb1 q1 hsub
    rw [r1, r2, hq3]
    exact ⟨rfl, rfl⟩
  · have hsub : sub32 ((t0 + 3000) % 4294967296) s2.botao_a_pressao_inicio ≥ 3000 := by
      rw [q2, sub32_decorrido t0 3000 (by omega)]
    obtain ⟨r1, r2, r3, r4⟩ :=
      amostrar_segurar_longo s2 ((t0 + 3000) % 4294967296) gj1 gb1 q1 hsub
    refine ⟨r4, r3.trans hq3, ?_⟩
    intro depois e gj2 gb2 hdepois he1 he2
    obtain ⟨u1, u2, u3, u4⟩ := segurar_longo t0 depois _ r1 (r2.trans q2) r4 hdepois
    have hsub' : sub32 ((t0 + e) % 4294967296)
        (segurar t0 (amostrar_botoes s2 ((t0 + 3000) % 4294967296) gj1 false gb1)
          depois).botao_a_pressao_inicio ≥ 3000 := by
      rw [u2, sub32_decorrido t0 e he2]
      exact he1
    obtain ⟨v1, v2, _⟩ := amostrar_soltar_longo _ ((t0 + e) % 4294967296) gj2 gb2 u1 hsub'
    rw [v1, v2, u3, u4, r3, hq3]
    exact ⟨rfl, rfl⟩

theorem botao_a_pressao_curta_e_longa_witness :
    ((amostrar_botoes
        (segurar 4294967000
          (amostrar_botoes
            ⟨⟨.AZUL, .COZINHA, false, false⟩, 0, 0, 0, 0, 0, false, false, false, false⟩
            4294967000 true false true)
          [(1000, true, true)])
        ((4294967000 + 2999) % 4294967296) true true true).dev.comodo_atual = .BANHEIRO ∧
     (amostrar_botoes
        (segurar 4294967000
          (amostrar_botoes
            ⟨⟨.AZUL, .COZINHA, false, false⟩, 0, 0, 0, 0, 0, false, false, false, false⟩
            4294967000 true false true)
          [(1000, true, true)])
        ((4294967000 + 2999) % 4294967296) true true true).dev.led_ligado = true) ∧
    (amostrar_botoes
        (segurar 4294967000
          (amostrar_botoes
            ⟨⟨.AZUL, .COZINHA, false, false⟩, 0, 0, 0, 0, 0, false, false, false, false⟩
            4294967000 true false true)
          [(1000, true, true)])
        ((4294967000 + 3000) % 4294967296) true false true).dev.led_ligado = false :=
  have h := botao_a_pressao_curta_e_longa
    ⟨⟨.AZUL, .COZINHA, false, false⟩, 0, 0, 0, 0, 0, false, false, false, false⟩
    4294967000 true true true true [(1000, true, true)] rfl (by decide)
  ⟨h.1, h.2.1⟩

/-! ## Connection handler -/

theorem tcp_server_recv_acoes (d : DeviceState) (payload temp : List Nat) :
    (tcp_server_recv d (some payload) temp).2 =
      [.tcp_write (cstr (snprintf_html (tcp_server_recv d (some payload) temp).1 temp)),
       .tcp_output, .pbuf_free] :=
  rfl

theorem efeito_acoes_dados (c : Conexao) (dados : List Nat) :
    efeito_acoes c [.tcp_write dados, .tcp_output, .pbuf_free] = c :=
  rfl

/-- C11 (as stated) fails for an empty payload: a receive event with a
non-NULL buffer of zero bytes is answered like any data event; the callback
writes a response, does not call `tcp_close` and leaves the receive handler
registered. -/
theorem tcp_server_recv_vazio_responde :
    (tcp_server_recv ⟨.VERDE, .QUARTO_2, true, false⟩ (some []) (bytes "27.3")).2
      ≠ [.tcp_close, .tcp_recv_NULL] ∧
    (∃ dados, (tcp_server_recv ⟨.VERDE, .QUARTO_2, true, false⟩ (some [])
      (bytes "27.3")).2 = [.tcp_write dados, .tcp_output, .pbuf_free]) ∧
    efeito_acoes tcp_server_accept
      (tcp_server_recv ⟨.VERDE, .QUARTO_2, true, false⟩ (some []) (bytes "27.3")).2
      = { aberta := true, recv_registrado := true } := by
  refine ⟨?_, ⟨_, tcp_server_recv_acoes _ _ _⟩, ?_⟩
  · rw [tcp_server_recv_acoes]
    intro h
    exact Acao.noConfusion (List.cons.inj h).1
  · rw [tcp_server_recv_acoes, efeito_acoes_dados]
    rfl

/-- C11 (amended): a receive event whose buffer is NULL is treated as a
peer-initiated close: `tcp_server_recv` closes the connection, deregisters the
receive handler, writes no response and leaves the Device State unchanged. A
non-NULL buffer of zero bytes also leaves the Device State unchanged. -/
theorem tcp_server_recv_null (d : DeviceState) (temp : List Nat) :
    tcp_server_recv d none temp = (d, [.tcp_close, .tcp_recv_NULL]) ∧
    efeito_acoes tcp_server_accept (tcp_server_recv d none temp).2
      = { aberta := false, recv_registrado := false } ∧
    (∀ dados, Acao.tcp_write dados ∉ (tcp_server_recv d none temp).2) ∧
    (tcp_server_recv d (some []) temp).1 = d := by
  refine ⟨rfl, rfl, ?_, ?_⟩
  · intro dados h
    simp [tcp_server_recv] at h
  · show processar_requisicao d ([] ++ [0]) 0 = d
    exact rotear_sem_token d _ _ (by decide)

/-- C12 (as stated) fails: after a receive event that carries data the
connection is not closed. The callback makes no `tcp_close` call and leaves
the receive handler registered, so the connection stays open for further
receive events. -/
theorem tcp_server_recv_nao_fecha :
    Acao.tcp_close ∉
      (tcp_server_recv ⟨.AZUL, .COZINHA, false, false⟩
        (some (bytes "GET /led_on HTTP/1.1\r\n\r\n")) (bytes "27.3")).2 ∧
    efeito_acoes tcp_server_accept
      (tcp_server_recv ⟨.AZUL, .COZINHA, false, false⟩
        (some (bytes "GET /led_on HTTP/1.1\r\n\r\n")) (bytes "27.3")).2
      = { aberta := true, recv_registrado := true } := by
  refine ⟨?_, ?_⟩
  · rw [tcp_server_recv_acoes]
    simp
  · rw [tcp_server_recv_acoes, efeito_acoes_dados]
    rfl

/-- C12 (amended): for every receive event that carries data,
`tcp_server_recv` performs one request/response cycle: it routes the request,
writes the response built from the routed state, flushes it and releases the
inbound buffer, in this order and once each. It does not close the
connection: the connection stays open with the receive handler registered,
and is closed when a later receive event carries a NULL buffer. -/
theorem tcp_server_recv_ciclo (d : DeviceState) (payload temp : List Nat) :
    (tcp_server_recv d (some payload) temp).1 =
      processar_requisicao d
        (payload.take (if payload.length < 255 then payload.length else 255) ++ [0])
        (if payload.length < 255 then payload.length else 255) ∧
    (tcp_server_recv d (some payload) temp).2 =
      [.tcp_write (cstr (snprintf_html (tcp_server_recv d (some payload) temp).1 temp)),
       .tcp_output, .pbuf_free] ∧
    efeito_acoes tcp_server_accept (tcp_server_recv d (some payload) temp).2
      = { aberta := true, recv_registrado := true } ∧
    (∀ (d2 : DeviceState) (temp2 : List Nat),
      efeito_acoes
        (efeito_acoes tcp_server_accept (tcp_server_recv d (some payload) temp).2)
        (tcp_server_recv d2 none temp2).2
      = { aberta := false, recv_registrado := false }) := by
  refine ⟨rfl, rfl, ?_, ?_⟩
  · rw [tcp_server_recv_acoes, efeito_acoes_dados]
    rfl
  · intro d2 temp2
    rw [tcp_server_recv_acoes, efeito_acoes_dados]
    rfl

/-! ## Response generator -/

theorem formato_inicio_length : (bytes (String.join formato_inicio)).length = 1777 := by
  decide!

theorem formato_inicio_sem_nul : ∀ c ∈ bytes (String.join formato_inicio), c ≠ 0 := by
  decide!

theorem formato_inicio_cabecalho :
    bytes (String.join formato_inicio) =
      bytes "HTTP/1.1 200 OK\r\n" ++ bytes "Content-Type: text/html\r\n"
        ++ bytes (String.join (formato_inicio.drop 2)) := by
  decide!

theorem texto_html_eq (d : DeviceState) (temp : List Nat) :
    texto_html d temp =
      bytes (String.join formato_inicio) ++ (html_antes d ++ temp ++ html_depois d) := by
  simp only [texto_html, html_antes, html_depois, List.append_assoc]

theorem html_campos_length (d : DeviceState) :
    (html_antes d).length + (html_depois d).length ≤ 111 := by
  obtain ⟨c, r, l, e⟩ := d
  cases c <;> cases r <;> cases l <;> cases e <;> decide

theorem html_campos_sem_nul (d : DeviceState) :
    ∀ c ∈ html_antes d ++ html_depois d, c ≠ 0 := by
  obtain ⟨c, r, l, e⟩ := d
  cases c <;> cases r <;> cases l <;> cases e <;> decide

theorem texto_html_length (d : DeviceState) (temp : List Nat) :
    (texto_html d temp).length ≤ 1888 + temp.length := by
  have h := html_campos_length d
  rw [texto_html_eq]
  simp only [List.length_append, formato_inicio_length]
  omega

theorem cstr_sem_nul (l : List Nat) (h : ∀ c ∈ l, c ≠ 0) : cstr l = l := by
  unfold cstr
  rw [List.takeWhile_eq_self_iff]
  intro c hc
  simpa using h c hc

theorem texto_html_sem_nul (d : DeviceState) (temp : List Nat)
    (h : ∀ c ∈ temp, c ≠ 0) : ∀ c ∈ texto_html d temp, c ≠ 0 := by
  intro c hc
  rw [texto_html_eq] at hc
  simp only [List.mem_append] at hc
  rcases hc with hc | (hc | hc) | hc
  · exact formato_inicio_sem_nul c hc
  · exact html_campos_sem_nul d c (List.mem_append_left _ hc)
  · exact h c hc
  · exact html_campos_sem_nul d c (List.mem_append_right _ hc)

theorem resposta_escrita (d : DeviceState) (temp : List Nat)
    (hlen : temp.length ≤ 111) (hnul : ∀ c ∈ temp, c ≠ 0) :
    cstr (snprintf_html d temp) = texto_html d temp := by
  have hl := texto_html_length d temp
  unfold snprintf_html
  rw [List.take_of_length_le (by omega)]
  exact cstr_sem_nul _ (texto_html_sem_nul d temp hnul)

/-- C13: for every Device State and every data payload the response written
by `tcp_server_recv` starts with the status line `HTTP/1.1 200 OK` followed by
`Content-Type: text/html`, and its status lines render the Device State as it
is after the request has been routed: `LIGADO` or `DESLIGADO` for the LED
flag, the name of the current colour, `LIGADA` or `DESLIGADA` for emergency.
The temperature text is any NUL-free text of at most 111 bytes, which covers
every `%.1f` rendering of a `float`. -/
theorem resposta_200_e_rotulos (d : DeviceState) (payload temp : List Nat)
    (hlen : temp.length ≤ 111) (hnul : ∀ c ∈ temp, c ≠ 0) :
    (tcp_server_recv d (some payload) temp).1 =
      processar_requisicao d
        (payload.take (if payload.length < 255 then payload.length else 255) ++ [0])
        (if payload.length < 255 then payload.length else 255) ∧
    (tcp_server_recv d (some payload) temp).2 =
      [.tcp_write
        (bytes "HTTP/1.1 200 OK\r\n" ++ bytes "Content-Type: text/html\r\n"
          ++ bytes (String.join (formato_inicio.drop 2))
          ++ bytes "<p>LED: "
          ++ bytes (if (tcp_server_recv d (some payload) temp).1.led_ligado
              then "LIGADO" else "DESLIGADO")
          ++ bytes "</p>"
          ++ bytes "<p>Cor: "
          ++ bytes (match (tcp_server_recv d (some payload) temp).1.cor_atual with
              | .VERMELHO => "Vermelho"
              | .VERDE => "Verde"
              | .AZUL => "Azul"
              | .AMARELO => "Amarelo"
              | .CIANO => "Ciano"
              | .LILAS => "Lilás")
          ++ bytes "</p>"
          ++ bytes "<p>Temperatura: " ++ temp ++ bytes "C</p>"
          ++ bytes "<p>Emergência: "
          ++ bytes (if (tcp_server_recv d (some payload) temp).1.emergencia
              then "LIGADA" else "DESLIGADA")
          ++ bytes "</p>"
          ++ bytes "</div>"
          ++ bytes "</body>"
          ++ bytes "</html>"),
       .tcp_output, .pbuf_free] := by
  refine ⟨rfl, ?_⟩
  rw [tcp_server_recv_acoes, resposta_escrita _ _ hlen hnul]
  generalize (tcp_server_recv d (some payload) temp).1 = d1
  obtain ⟨c, r, l, e⟩ := d1
  cases c <;>
    simp only [texto_html, formato_inicio_cabecalho, List.append_assoc, reduceCtorEq,
      if_true, if_false]

theorem resposta_200_e_rotulos_witness :
    (tcp_server_recv ⟨.VERMELHO, .QUARTO_1, false, true⟩
      (some (bytes "GET /color_lilas HTTP/1.1\r\n\r\n")) (bytes "36.5")).1
      = ⟨.LILAS, .QUARTO_1, false, true⟩ :=
  (resposta_200_e_rotulos ⟨.VERMELHO, .QUARTO_1, false, true⟩
    (bytes "GET /color_lilas HTTP/1.1\r\n\r\n") (bytes "36.5")
    (by decide) (by decide)).1.trans (by decide)

/-- C14: the response always fits its buffer. For every Device State and every
temperature text of at most 7 bytes the expanded format has fewer than 2000
bytes (at most 1895), so `snprintf` into `html[2000]` stores it whole. -/
theorem resposta_cabe_no_buffer (d : DeviceState) (temp : List Nat)
    (h7 : temp.length ≤ 7) :
    (texto_html d temp).length < 2000 ∧
    (texto_html d temp).length ≤ 1895 ∧
    snprintf_html d temp = texto_html d temp := by
  have hl := texto_html_length d temp
  refine ⟨by omega, by omega, ?_⟩
  unfold snprintf_html
  exact List.take_of_length_le (by omega)

theorem resposta_cabe_no_buffer_witness :
    (bytes "-1479.8").length ≤ 7 ∧
    (texto_html ⟨.VERMELHO, .BANHEIRO, false, false⟩ (bytes "-1479.8")).length < 2000 :=
  ⟨by decide,
   (resposta_cabe_no_buffer ⟨.VERMELHO, .BANHEIRO, false, false⟩ (bytes "-1479.8")
     (by decide)).1⟩

/-! ## Cyclic increments -/

theorem cor_toNat_fromNat_mod (k : Nat) : (Cor.fromNat (k % 6)).toNat = k % 6 := by
  have h : k % 6 < 6 := Nat.mod_lt _ (by decide)
  generalize k % 6 = n at h
  interval_cases n <;> rfl

theorem cor_toNat_lt (c : Cor) : c.toNat < 6 := by
  cases c <;> decide

theorem cor_toNat_inj (a b : Cor) (h : a.toNat = b.toNat) : a = b := by
  revert h
  cases a <;> cases b <;> decide

theorem comodo_toNat_fromNat_mod (k : Nat) : (Comodo.fromNat (k % 4)).toNat = k % 4 := by
  have h : k % 4 < 4 := Nat.mod_lt _ (by decide)
  generalize k % 4 = n at h
  interval_cases n <;> rfl

theorem comodo_toNat_lt (c : Comodo) : c.toNat < 4 := by
  cases c <;> decide

theorem comodo_toNat_inj (a b : Comodo) (h : a.toNat = b.toNat) : a = b := by
  revert h
  cases a <;> cases b <;> decide

theorem botao_a_J (s : Sistema) (agora : Nat) (b : Bool) :
    (botao_a s agora b).dev.cor_atual = s.dev.cor_atual ∧
    (botao_a s agora b).botao_joystick_pressionado = s.botao_joystick_pressionado := by
  unfold botao_a
  split_ifs <;> exact ⟨rfl, rfl⟩

theorem botao_b_J (s : Sistema) (b : Bool) :
    (botao_b s b).dev.cor_atual = s.dev.cor_atual ∧
    (botao_b s b).botao_joystick_pressionado = s.botao_joystick_pressionado := by
  unfold botao_b
  split_ifs <;> exact ⟨rfl, rfl⟩

theorem amostrar_botoes_J (s : Sistema) (agora : Nat) (gj ga gb : Bool) :
    (amostrar_botoes s agora gj ga gb).dev.cor_atual
      = (botao_joystick s (!gj)).dev.cor_atual ∧
    (amostrar_botoes s agora gj ga gb).botao_joystick_pressionado
      = (botao_joystick s (!gj)).botao_joystick_pressionado := by
  obtain ⟨b1, b2⟩ := botao_b_J (botao_a (botao_joystick s (!gj)) agora (!ga)) (!gb)
  obtain ⟨a1, a2⟩ := botao_a_J (botao_joystick s (!gj)) agora (!ga)
  exact ⟨b1.trans a1, b2.trans a2⟩

theorem amostrar_joystick_pressionar (s : Sistema) (agora : Nat) (ga gb : Bool)
    (h : s.botao_joystick_pressionado = false) :
    (amostrar_botoes s agora false ga gb).dev.cor_atual
      = Cor.fromNat ((s.dev.cor_atual.toNat + 1) % 6) ∧
    (amostrar_botoes s agora false ga gb).botao_joystick_pressionado = true := by
  obtain ⟨j1, j2⟩ := amostrar_botoes_J s agora false ga gb
  rw [j1, j2]
  unfold botao_joystick
  simp [h]

theorem amostrar_joystick_soltar (s : Sistema) (agora : Nat) (ga gb : Bool) :
    (amostrar_botoes s agora true ga gb).dev.cor_atual = s.dev.cor_atual ∧
    (amostrar_botoes s agora true ga gb).botao_joystick_pressionado = false := by
  obtain ⟨j1, j2⟩ := amostrar_botoes_J s agora true ga gb
  rw [j1, j2]
  unfold botao_joystick
  simp

theorem cliques_joystick_cor (xs : List ((Nat × Bool × Bool) × (Nat × Bool × Bool)))
    (s : Sistema) (h : s.botao_joystick_pressionado = false) :
    (cliques_joystick s xs).dev.cor_atual.toNat
      = (s.dev.cor_atual.toNat + xs.length) % 6 := by
  induction xs generalizing s with
  | nil =>
    have := cor_toNat_lt s.dev.cor_atual
    simp only [cliques_joystick, List.length_nil, Nat.add_zero]
    omega
  | cons x r ih =>
    obtain ⟨p1, _⟩ := amostrar_joystick_pressionar s x.1.1 x.1.2.1 x.1.2.2 h
    obtain ⟨q1, q2⟩ := amostrar_joystick_soltar
      (amostrar_botoes s x.1.1 false x.1.2.1 x.1.2.2) x.2.1 x.2.2.1 x.2.2.2
    have hstep := ih _ q2
    rw [q1, p1, cor_toNat_fromNat_mod] at hstep
    simp only [cliques_joystick, List.length_cons]
    rw [hstep]
    omega

theorem cliques_a_comodo (xs : List ((Nat × Bool × Bool) × (Nat × Bool × Bool)))
    (s : Sistema) (h : s.botao_a_pressionado = false)
    (hxs : ∀ x ∈ xs, sub32 x.2.1 x.1.1 < 3000) :
    (cliques_a s xs).dev.comodo_atual.toNat
      = (s.dev.comodo_atual.toNat + xs.length) % 4 := by
  induction xs generalizing s with
  | nil =>
    have := comodo_toNat_lt s.dev.comodo_atual
    simp only [cliques_a, List.length_nil, Nat.add_zero]
    omega
  | cons x r ih =>
    obtain ⟨p1, p2, p3, _⟩ := amostrar_pressionar s x.1.1 x.1.2.1 x.1.2.2 h
    have hx := hxs x (List.mem_cons_self _ _)
    rw [← p2] at hx
    obtain ⟨q1, _, q3⟩ := amostrar_soltar_curto
      (amostrar_botoes s x.1.1 x.1.2.1 false x.1.2.2) x.2.1 x.2.2.1 x.2.2.2 p1 hx
    have hstep := ih _ q3 (fun y hy => hxs y (List.mem_cons_of_mem _ hy))
    rw [q1, p3, comodo_toNat_fromNat_mod] at hstep
    simp only [cliques_a, List.length_cons]
    rw [hstep]
    omega

/-- C15: the physical increments are cyclic. A new joystick press sets the
colour to `(color + 1) mod 6` and a short press of Button A sets the room to
`(room + 1) mod 4`. After any run of `n` joystick clicks the colour is
`(color + n) mod 6`, and after `n` short Button A clicks the room is
`(room + n) mod 4`: six colour increments, and four room increments, return
to the original value, and no smaller positive number of them does. -/
theorem incrementos_ciclicos (s : Sistema) :
    (∀ (agora : Nat) (ga gb : Bool), s.botao_joystick_pressionado = false →
      (amostrar_botoes s agora false ga gb).dev.cor_atual
        = Cor.fromNat ((s.dev.cor_atual.toNat + 1) % 6) ∧
      (amostrar_botoes s agora false ga gb).dev.cor_atual.toNat
        = (s.dev.cor_atual.toNat + 1) % 6) ∧
    (∀ xs : List ((Nat × Bool × Bool) × (Nat × Bool × Bool)),
      s.botao_joystick_pressionado = false →
      (cliques_joystick s xs).dev.cor_atual.toNat
        = (s.dev.cor_atual.toNat + xs.length) % 6 ∧
      (xs.length = 6 → (cliques_joystick s xs).dev.cor_atual = s.dev.cor_atual) ∧
      (0 < xs.length → xs.length < 6 →
        (cliques_joystick s xs).dev.cor_atual ≠ s.dev.cor_atual)) ∧
    (∀ (t1 t2 : Nat) (gj1 gb1 gj2 gb2 : Bool), s.botao_a_pressionado = false →
      sub32 t2 t1 < 3000 →
      (amostrar_botoes (amostrar_botoes s t1 gj1 false gb1) t2 gj2 true gb2).dev.comodo_atual
        = Comodo.fromNat ((s.dev.comodo_atual.toNat + 1) % 4) ∧
      (amostrar_botoes (amostrar_botoes s t1 gj1 false gb1)
          t2 gj2 true gb2).dev.comodo_atual.toNat
        = (s.dev.comodo_atual.toNat + 1) % 4) ∧
    (∀ xs : List ((Nat × Bool × Bool) × (Nat × Bool × Bool)),
      s.botao_a_pressionado = false → (∀ x ∈ xs, sub32 x.2.1 x.1.1 < 3000) →
      (cliques_a s xs).dev.comodo_atual.toNat
        = (s.dev.comodo_atual.toNat + xs.length) % 4 ∧
      (xs.length = 4 → (cliques_a s xs).dev.comodo_atual = s.dev.comodo_atual) ∧
      (0 < xs.length → xs.length < 4 →
        (cliques_a s xs).dev.comodo_atual ≠ s.dev.comodo_atual)) := by
  have hc := cor_toNat_lt s.dev.cor_atual
  have hr := comodo_toNat_lt s.dev.comodo_atual
  refine ⟨?_, ?_, ?_, ?_⟩
  · intro agora ga gb h
    obtain ⟨p1, _⟩ := amostrar_joystick_pressionar s agora ga gb h
    exact ⟨p1, by rw [p1, cor_toNat_fromNat_mod]⟩
  · intro xs h
    have key := cliques_joystick_cor xs s h
    refine ⟨key, ?_, ?_⟩
    · intro h6
      apply cor_toNat_inj
      rw [key, h6]
      omega
    · intro h0 h6 heq
      rw [heq] at key
      omega
  · intro t1 t2 gj1 gb1 gj2 gb2 h ht
    obtain ⟨p1, p2, p3, _⟩ := amostrar_pressionar s t1 gj1 gb1 h
    rw [← p2] at ht
    obtain ⟨q1, _, _⟩ := amostrar_soltar_curto
      (amostrar_botoes s t1 gj1 false gb1) t2 gj2 gb2 p1 ht
    rw [p3] at q1
    exact ⟨q1, by rw [q1, comodo_toNat_fromNat_mod]⟩
  · intro xs h hxs
    have key := cliques_a_comodo xs s h hxs
    refine ⟨key, ?_, ?_⟩
    · intro h4
      apply comodo_toNat_inj
      rw [key, h4]
      omega
    · intro h0 h4 heq
      rw [heq] at key
      omega

theorem incrementos_ciclicos_witness :
    (cliques_joystick
      ⟨⟨.CIANO, .COZINHA, true, false⟩, 0, 0, 0, 0, 0, false, false, false, false⟩
      [((10, true, true), (20, true, true)), ((30, true, true), (40, true, true)),
       ((50, true, true), (60, true, true)), ((70, true, true), (80, true, true)),
       ((90, true, true), (100, true, true)),
       ((110, true, true), (120, true, true))]).dev.cor_atual = .CIANO ∧
    (cliques_a
      ⟨⟨.CIANO, .COZINHA, true, false⟩, 0, 0, 0, 0, 0, false, false, false, false⟩
      [((10, true, true), (20, true, true)), ((30, true, true), (40, true, true)),
       ((50, true, true), (60, true, true)),
       ((70, true, true), (80, true, true))]).dev.comodo_atual = .COZINHA :=
  have h := incrementos_ciclicos
    ⟨⟨.CIANO, .COZINHA, true, false⟩, 0, 0, 0, 0, 0, false, false, false, false⟩
  ⟨(h.2.1 _ rfl).2.1 rfl, (h.2.2.2 _ rfl (by decide)).2.1 rfl⟩

/-! ## Truncation of oversized requests -/

theorem copia_limitada (payload : List Nat) :
    payload.take (if payload.length < 255 then payload.length else 255)
      = payload.take 255 ∧
    (if payload.length < 255 then payload.length else 255) = (payload.take 255).length := by
  by_cases h : payload.length < 255
  · rw [if_pos h, List.take_of_length_le (Nat.le_refl _),
      List.take_of_length_le (Nat.le_of_lt h)]
    exact ⟨rfl, rfl⟩
  · rw [if_neg h, List.length_take]
    exact ⟨rfl, by omega⟩

theorem tcp_server_recv_prefixo (d : DeviceState) (payload temp : List Nat) :
    tcp_server_recv d (some payload) temp =
      (processar_requisicao d (payload.take 255 ++ [0]) (payload.take 255).length,
       [.tcp_write (cstr (snprintf_html
          (processar_requisicao d (payload.take 255 ++ [0]) (payload.take 255).length)
          temp)),
        .tcp_output, .pbuf_free]) := by
  obtain ⟨h1, h2⟩ := copia_limitada payload
  simp only [tcp_server_recv]
  rw [h1, h2]

/-- C16: an oversized request is parsed from its truncated prefix only. Two
payloads that agree on their first 255 bytes leave the same Device State and
produce the same calls with the same response (hence the same labels); a
payload and its first 255 bytes are handled alike, so bytes at offset 255 and
beyond never influence the result. The copy length `min(len, 255)` is at most
255 and the copied bytes with their terminator fill at most the 256 bytes of
`requisicao`. -/
theorem tcp_server_recv_truncado (d : DeviceState) (p1 p2 temp : List Nat)
    (h : p1.take 255 = p2.take 255) :
    tcp_server_recv d (some p1) temp = tcp_server_recv d (some p2) temp ∧
    tcp_server_recv d (some p1) temp = tcp_server_recv d (some (p1.take 255)) temp ∧
    (if p1.length < 255 then p1.length else 255) ≤ 255 ∧
    (p1.take (if p1.length < 255 then p1.length else 255) ++ [0]).length ≤ 256 ∧
    p1.take (if p1.length < 255 then p1.length else 255) ++ [0]
      = p1.take 255 ++ [0] := by
  obtain ⟨h1, h2⟩ := copia_limitada p1
  refine ⟨?_, ?_, ?_, ?_, ?_⟩
  · rw [tcp_server_recv_prefixo d p1, tcp_server_recv_prefixo d p2, h]
  · rw [tcp_server_recv_prefixo d p1, tcp_server_recv_prefixo d (p1.take 255),
      List.take_take, Nat.min_self]
  · split_ifs <;> omega
  · rw [h1, List.length_append, List.length_take, List.length_singleton]
    omega
  · rw [h1]

theorem tcp_server_recv_truncado_witness :
    tcp_server_recv ⟨.VERDE, .QUARTO_1, false, false⟩
      (some (List.replicate 250 32 ++ bytes "GET /led_on")) (bytes "30.1")
    = tcp_server_recv ⟨.VERDE, .QUARTO_1, false, false⟩
      (some (List.replicate 250 32 ++ bytes "GET /room3")) (bytes "30.1") :=
  (tcp_server_recv_truncado ⟨.VERDE, .QUARTO_1, false, false⟩
    (List.replicate 250 32 ++ bytes "GET /led_on")
    (List.replicate 250 32 ++ bytes "GET /room3") (bytes "30.1") (by decide!)).1

/-! ## Table order is the tie-break -/

theorem rotear_primeiro_tabela (pre post : List (List Nat × (DeviceState → DeviceState)))
    (t : List Nat) (f : DeviceState → DeviceState) (ant : List (List Nat))
    (requisicao : List Nat) (d : DeviceState) (len : Nat)
    (hrot : rotas = pre ++ (t, f) :: post)
    (hpre : ∀ r ∈ pre, cstr r.1 = r.1 ∧ r.1 ∈ ant)
    (ht : cstr t = t) (hoc : Ocorre t requisicao)
    (hant : ∀ u ∈ ant, ¬ Ocorre u requisicao) :
    processar_requisicao d requisicao len = f d := by
  rw [processar_requisicao_eq_rotear, hrot]
  exact rotear_primeiro pre post t f requisicao d
    (fun r hr => ⟨(hpre r hr).1, hant r.1 (hpre r hr).2⟩) ht hoc

/-- C17: table order is the tie-break. Whatever other command tokens the
request contains and wherever they stand in the buffer, `processar_requisicao`
applies exactly the command of the first token, in table order, that occurs in
the request: when a token occurs and none of the tokens before it in the table
does, the result is the update of that token alone (`tokens.take i` are the
`i` tokens tested before the one of index `i`). -/
theorem processar_requisicao_ordem_da_tabela (d : DeviceState) (requisicao : List Nat)
    (len : Nat) :
    (Ocorre (bytes "GET /led_on") requisicao →
      (∀ u ∈ tokens.take 0, ¬ Ocorre u requisicao) →
      processar_requisicao d requisicao len = { d with led_ligado := true }) ∧
    (Ocorre (bytes "GET /led_off") requisicao →
      (∀ u ∈ tokens.take 1, ¬ Ocorre u requisicao) →
      processar_requisicao d requisicao len = { d with led_ligado := false }) ∧
    (Ocorre (bytes "GET /color_red") requisicao →
      (∀ u ∈ tokens.take 2, ¬ Ocorre u requisicao) →
      processar_requisicao d requisicao len = { d with cor_atual := .VERMELHO }) ∧
    (Ocorre (bytes "GET /color_green") requisicao →
      (∀ u ∈ tokens.take 3, ¬ Ocorre u requisicao) →
      processar_requisicao d requisicao len = { d with cor_atual := .VERDE }) ∧
    (Ocorre (bytes "GET /color_blue") requisicao →
      (∀ u ∈ tokens.take 4, ¬ Ocorre u requisicao) →
      processar_requisicao d requisicao len = { d with cor_atual := .AZUL }) ∧
    (Ocorre (bytes "GET /color_yellow") requisicao →
      (∀ u ∈ tokens.take 5, ¬ Ocorre u requisicao) →
      processar_requisicao d requisicao len = { d with cor_atual := .AMARELO }) ∧
    (Ocorre (bytes "GET /color_cyan") requisicao →
      (∀ u ∈ tokens.take 6, ¬ Ocorre u requisicao) →
      processar_requisicao d requisicao len = { d with cor_atual := .CIANO }) ∧
    (Ocorre (bytes "GET /color_lilas") requisicao →
      (∀ u ∈ tokens.take 7, ¬ Ocorre u requisicao) →
      processar_requisicao d requisicao len = { d with cor_atual := .LILAS }) ∧
    (Ocorre (bytes "GET /alarm_off") requisicao →
      (∀ u ∈ tokens.take 8, ¬ Ocorre u requisicao) →
      processar_requisicao d requisicao len = { d with emergencia := false }) ∧
    (Ocorre (bytes "GET /room1") requisicao →
      (∀ u ∈ tokens.take 9, ¬ Ocorre u requisicao) →
      processar_requisicao d requisicao len = { d with comodo_atual := .QUARTO_1, led_ligado := true }) ∧
    (Ocorre (bytes "GET /room2") requisicao →
      (∀ u ∈ tokens.take 10, ¬ Ocorre u requisicao) →
      processar_requisicao d requisicao len = { d with comodo_atual := .QUARTO_2, led_ligado := true }) ∧
    (Ocorre (bytes "GET /room3") requisicao →
      (∀ u ∈ tokens.take 11, ¬ Ocorre u requisicao) →
      processar_requisicao d requisicao len = { d with comodo_atual := .COZINHA, led_ligado := true }) ∧
    (Ocorre (bytes "GET /room4") requisicao →
      (∀ u ∈ tokens.take 12, ¬ Ocorre u requisicao) →
      processar_requisicao d requisicao len = { d with comodo_atual := .BANHEIRO, led_ligado := true }) := by
  refine ⟨?_, ?_, ?_, ?_, ?_, ?_, ?_, ?_, ?_, ?_, ?_, ?_, ?_⟩ <;> intro h ha
  · exact rotear_primeiro_tabela (rotas.take 0) (rotas.drop 1) _ _ (tokens.take 0)
      requisicao d len rfl (by decide) (by decide) h ha
  · exact rotear_primeiro_tabela (rotas.take 1) (rotas.drop 2) _ _ (tokens.take 1)
      requisicao d len rfl (by decide) (by decide) h ha
  · exact rotear_primeiro_tabela (rotas.take 2) (rotas.drop 3) _ _ (tokens.take 2)
      requisicao d len rfl (by decide) (by decide) h ha
  · exact rotear_primeiro_tabela (rotas.take 3) (rotas.drop 4) _ _ (tokens.take 3)
      requisicao d len rfl (by decide) (by decide) h ha
  · exact rotear_primeiro_tabela (rotas.take 4) (rotas.drop 5) _ _ (tokens.take 4)
      requisicao d len rfl (by decide) (by decide) h ha
  · exact rotear_primeiro_tabela (rotas.take 5) (rotas.drop 6) _ _ (tokens.take 5)
      requisicao d len rfl (by decide) (by decide) h ha
  · exact rotear_primeiro_tabela (rotas.take 6) (rotas.drop 7) _ _ (tokens.take 6)
      requisicao d len rfl (by decide) (by decide) h ha
  · exact rotear_primeiro_tabela (rotas.take 7) (rotas.drop 8) _ _ (tokens.take 7)
      requisicao d len rfl (by decide) (by decide) h ha
  · exact rotear_primeiro_tabela (rotas.take 8) (rotas.drop 9) _ _ (tokens.take 8)
      requisicao d len rfl (by decide) (by decide) h ha
  · exact rotear_primeiro_tabela (rotas.take 9) (rotas.drop 10) _ _ (tokens.take 9)
      requisicao d len rfl (by decide) (by decide) h ha
  · exact rotear_primeiro_tabela (rotas.take 10) (rotas.drop 11) _ _ (tokens.take 10)
      requisicao d len rfl (by decide) (by decide) h ha
  · exact rotear_primeiro_tabela (rotas.take 11) (rotas.drop 12) _ _ (tokens.take 11)
      requisicao d len rfl (by decide) (by decide) h ha
  · exact rotear_primeiro_tabela (rotas.take 12) (rotas.drop 13) _ _ (tokens.take 12)
      requisicao d len rfl (by decide) (by decide) h ha

theorem processar_requisicao_ordem_da_tabela_witness :
    Ocorre (bytes "GET /room2") (bytes "GET /room2 HTTP/1.1\r\nX: GET /led_off\r\n") ∧
    Ocorre (bytes "GET /led_off") (bytes "GET /room2 HTTP/1.1\r\nX: GET /led_off\r\n") ∧
    processar_requisicao ⟨.AZUL, .COZINHA, true, false⟩
      (bytes "GET /room2 HTTP/1.1\r\nX: GET /led_off\r\n") 38
      = ⟨.AZUL, .COZINHA, false, false⟩ :=
  ⟨by decide, by decide,
   (processar_requisicao_ordem_da_tabela ⟨.AZUL, .COZINHA, true, false⟩
      (bytes "GET /room2 HTTP/1.1\r\nX: GET /led_off\r\n") 38).2.1
      (by decide) (by decide)⟩

/-! ## Long hold of Button A -/

/-- C18 (as stated) fails: during one uninterrupted hold of Button A, pressed
at time 0, the sample at 3000 ms sets the LED flag `false`; an HTTP
`GET /led_on` then sets it `true`; the next sample of the same hold, at
3010 ms, writes the LED flag again and sets it back to `false`. -/
theorem botao_a_longa_sobrescreve :
    (amostrar_botoes
      (amostrar_botoes
        ⟨⟨.AZUL, .COZINHA, true, false⟩, 0, 0, 0, 0, 0, false, false, false, false⟩
        0 true false true)
      3000 true false true).dev.led_ligado = false ∧
    (processar_requisicao
      (amostrar_botoes
        (amostrar_botoes
          ⟨⟨.AZUL, .COZINHA, true, false⟩, 0, 0, 0, 0, 0, false, false, false, false⟩
          0 true false true)
        3000 true false true).dev
      (bytes "GET /led_on HTTP/1.1\r\n\r\n") 24).led_ligado = true ∧
    (amostrar_botoes
      { amostrar_botoes
          (amostrar_botoes
            ⟨⟨.AZUL, .COZINHA, true, false⟩, 0, 0, 0, 0, 0, false, false, false, false⟩
            0 true false true)
          3000 true false true with
        dev := processar_requisicao
          (amostrar_botoes
            (amostrar_botoes
              ⟨⟨.AZUL, .COZINHA, true, false⟩, 0, 0, 0, 0, 0, false, false, false, false⟩
              0 true false true)
            3000 true false true).dev
          (bytes "GET /led_on HTTP/1.1\r\n\r\n") 24 }
      3010 true false true).dev.led_ligado = false := by
  decide

/-- C18 (amended): while Button A stays held for 3000 ms or more, every
debounce sample of the hold writes `led_ligado = false` and keeps the press
pending, so the write is repeated at each sample. A value set by another path
during the hold, such as `true` from an HTTP `GET /led_on`, is overwritten by
the next sample of the same hold. -/
theorem botao_a_longa_reafirma (s : Sistema) (agora : Nat) (gj gb : Bool)
    (requisicao : List Nat) (len : Nat)
    (hp : s.botao_a_pressionado = true)
    (ht : sub32 agora s.botao_a_pressao_inicio ≥ 3000)
    (hreq : UnicoToken (bytes "GET /led_on") requisicao) :
    (amostrar_botoes s agora gj false gb).dev.led_ligado = false ∧
    (amostrar_botoes s agora gj false gb).botao_a_pressionado = true ∧
    (amostrar_botoes s agora gj false gb).botao_a_pressao_inicio
      = s.botao_a_pressao_inicio ∧
    (processar_requisicao s.dev requisicao len).led_ligado = true ∧
    (amostrar_botoes { s with dev := processar_requisicao s.dev requisicao len }
      agora gj false gb).dev.led_ligado = false := by
  obtain ⟨a1, a2, _, a4⟩ := amostrar_segurar_longo s agora gj gb hp ht
  obtain ⟨_, _, _, b4⟩ := amostrar_segurar_longo
    { s with dev := processar_requisicao s.dev requisicao len } agora gj gb hp ht
  refine ⟨a4, a1, a2, ?_, b4⟩
  rw [rotear_unico (rotas.take 0) (rotas.drop 1) _ _ _ s.dev len rfl (by decide)
    (by decide) hreq]

theorem botao_a_longa_reafirma_witness :
    (amostrar_botoes
      { (⟨⟨.AZUL, .COZINHA, false, false⟩, 0, 0, 0, 0, 0, true, false, false, false⟩ :
          Sistema) with
        dev := processar_requisicao ⟨.AZUL, .COZINHA, false, false⟩
          (bytes "GET /led_on HTTP/1.1\r\n\r\n") 24 }
      3010 true false true).dev.led_ligado = false :=
  (botao_a_longa_reafirma
    ⟨⟨.AZUL, .COZINHA, false, false⟩, 0, 0, 0, 0, 0, true, false, false, false⟩
    3010 true true (bytes "GET /led_on HTTP/1.1\r\n\r\n") 24 rfl (by decide)
    (by decide)).2.2.2.2

end Painel
